import Mathlib

/-!
Verification development for the QLTOTapeMan LTFS engine.

Shallow embedding of the `libqltfs` core in Lean 4:
the SCSI sense-data decoder and command layer (`device/ScsiCommand.cpp`),
the tape-device controller state machine (`device/TapeDevice.cpp`),
the block/extent tracker (`io/BlockManager.cpp`),
the transfer loops (`io/TapeIO.cpp`),
and the LTFS index XML codec (`xml/IndexWriter.cpp`, `xml/IndexParser.cpp`).

Machine integers are modelled as `Nat` (all values involved are unsigned
and stay far below their C++ type bounds unless noted).  A `QByteArray`
is a `List Nat` of byte values; `QByteArray` indexing through
`constData()` is total in Qt because the backing buffer is always
NUL-terminated, so reading index `size` yields 0 — `qbaByte` mirrors
that with `List.getD _ _ 0`.
-/

namespace QLTFS

/-- Byte access through `QByteArray::constData()`: Qt guarantees the
buffer holds `size + 1` bytes with a trailing 0, so index `size` reads 0.
Indices beyond `size` are never reached by the embedded code. -/
def qbaByte (data : List Nat) (i : Nat) : Nat := data.getD i 0

/-! ## SCSI sense keys (`ScsiCommand.h`, `enum class ScsiSenseKey`)

The C++ enum is backed by `quint8`; the decoder casts an arbitrary
low nibble into it, so the sense key is modelled as the raw `Nat`
with named constants for the enumerators the code mentions. -/

def ScsiSenseKey.NoSense        : Nat := 0x00
def ScsiSenseKey.RecoveredError : Nat := 0x01
def ScsiSenseKey.NotReady       : Nat := 0x02
def ScsiSenseKey.MediumError    : Nat := 0x03
def ScsiSenseKey.HardwareError  : Nat := 0x04
def ScsiSenseKey.IllegalRequest : Nat := 0x05
def ScsiSenseKey.UnitAttention  : Nat := 0x06
def ScsiSenseKey.DataProtect    : Nat := 0x07
def ScsiSenseKey.BlankCheck     : Nat := 0x08
def ScsiSenseKey.VendorSpecific : Nat := 0x09
def ScsiSenseKey.CopyAborted    : Nat := 0x0A
def ScsiSenseKey.AbortedCommand : Nat := 0x0B
def ScsiSenseKey.VolumeOverflow : Nat := 0x0D
def ScsiSenseKey.Miscompare     : Nat := 0x0E
def ScsiSenseKey.Completed      : Nat := 0x0F

/-- `struct ScsiSenseData` (`ScsiCommand.h`): parse result of raw sense
bytes.  Field defaults are the C++ member initialisers. -/
structure ScsiSenseData where
  valid : Bool := false
  senseKey : Nat := ScsiSenseKey.NoSense
  additionalSenseCode : Nat := 0
  additionalSenseCodeQualifier : Nat := 0
  information : Nat := 0
  rawData : List Nat := []
  deriving Repr, DecidableEq

/-- `ScsiSenseData::fromRawData` (`ScsiCommand.cpp:106-148`), translated
branch for branch.  Fixed format (response code 0x70/0x71): sense key is
the low nibble of byte 2, the information field is bytes 3..6 big-endian,
and when `data.size() >= 13` and the additional-sense-length byte (byte 7)
is at least 6 the ASC/ASCQ are read from byte indices 12 and 13.
Descriptor format (0x72/0x73): sense key from the low nibble of byte 1,
ASC/ASCQ from bytes 2 and 3. -/
def ScsiSenseData.fromRawData (data : List Nat) : ScsiSenseData :=
  let sense : ScsiSenseData := { rawData := data }
  if data.length < 8 then sense
  else
    let b := qbaByte data
    let responseCode := b 0 &&& 0x7F
    if responseCode = 0x70 ∨ responseCode = 0x71 then
      let sense := { sense with
        valid := b 0 &&& 0x80 ≠ 0
        senseKey := b 2 &&& 0x0F
        information := (b 3 <<< 24) ||| (b 4 <<< 16) ||| (b 5 <<< 8) ||| b 6 }
      let additionalLength := b 7
      let sense :=
        if 13 ≤ data.length ∧ 6 ≤ additionalLength then
          { sense with
            additionalSenseCode := b 12
            additionalSenseCodeQualifier := b 13 }
        else sense
      { sense with valid := true }
    else if responseCode = 0x72 ∨ responseCode = 0x73 then
      { sense with
        senseKey := b 1 &&& 0x0F
        additionalSenseCode := b 2
        additionalSenseCodeQualifier := b 3
        valid := true }
    else sense

/-- Trace of the byte indices `ScsiSenseData::fromRawData` dereferences
on `constData()`, read off the source line by line: byte 0 for the
response code and the valid bit, bytes 2..7 in the fixed-format branch
and additionally 12 and 13 when the fixed-format guard
`data.size() >= 13 && additionalLength >= 6` holds, bytes 1..3 in the
descriptor-format branch. -/
def fromRawDataAccesses (data : List Nat) : List Nat :=
  if data.length < 8 then []
  else
    let b := qbaByte data
    let responseCode := b 0 &&& 0x7F
    if responseCode = 0x70 ∨ responseCode = 0x71 then
      [0, 2, 3, 4, 5, 6, 7] ++
        (if 13 ≤ data.length ∧ 6 ≤ b 7 then [12, 13] else [])
    else if responseCode = 0x72 ∨ responseCode = 0x73 then
      [0, 1, 2, 3]
    else [0]

/-- `struct ScsiCommandResult` (`ScsiCommand.h`): outcome of one SCSI
command execution.  `data` is the transferred payload; on the Linux
`SG_IO` path the buffer is resized to `bytesTransferred` before being
stored, so `data.length` is the byte count actually read. -/
structure ScsiCommandResult where
  success : Bool := false
  hostStatus : Nat := 0
  driverStatus : Nat := 0
  scsiStatus : Nat := 0
  senseData : ScsiSenseData := {}
  data : List Nat := []
  bytesTransferred : Nat := 0
  residual : Nat := 0
  deriving Repr, DecidableEq

/-! ## Tape device controller (`device/TapeDevice.h`, `device/TapeDevice.cpp`) -/

/-- `enum class TapeStatus` (`TapeDevice.h:41-54`). -/
inductive TapeStatus where
  | Unknown | NotReady | Ready | NoMedia | Loading | Unloading
  | Rewinding | Locating | Writing | Reading | WriteProtected | Error
  deriving Repr, DecidableEq

/-- Modelled from the spec: `TapePosition` is declared in
`core/LtfsTypes.h`, which is not among the provided sources; the fields
are the spec's `{partition, blockNumber, fileNumber, beginOfPartition,
endOfPartition, blockPositionUnknown}`. -/
structure TapePosition where
  partition : Nat := 0
  blockNumber : Nat := 0
  fileNumber : Nat := 0
  beginOfPartition : Bool := false
  endOfPartition : Bool := false
  blockPositionUnknown : Bool := false
  deriving Repr, DecidableEq

/-- Result of one `refreshStatus` call on an open device:
the status stored by `setStatus`, whether `mediaChanged(true)` was
emitted, and how many TEST UNIT READY commands were issued. -/
structure RefreshOutcome where
  status : TapeStatus
  mediaChangedEmitted : Bool
  turIssued : Nat
  deriving Repr, DecidableEq

/-- `TapeDevice::refreshStatus` (`TapeDevice.cpp:415-477`) on an open
device, with the outcomes of the first and (only consulted in the
`UnitAttention` branch) second `testUnitReady()` passed as inputs.
Translated switch for switch; the ASCQ sub-switch under ASC `0x04`
keeps the source's explicit `0x00`/`0x01`/`0x02`/default cases. -/
def refreshStatusModel (r1 r2 : ScsiCommandResult) : RefreshOutcome :=
  if r1.success then ⟨.Ready, false, 1⟩
  else if r1.senseData.senseKey = ScsiSenseKey.NotReady then
    if r1.senseData.additionalSenseCode = 0x3A then ⟨.NoMedia, false, 1⟩
    else if r1.senseData.additionalSenseCode = 0x04 then
      if r1.senseData.additionalSenseCodeQualifier = 0x00 then ⟨.NotReady, false, 1⟩
      else if r1.senseData.additionalSenseCodeQualifier = 0x01 then ⟨.Loading, false, 1⟩
      else if r1.senseData.additionalSenseCodeQualifier = 0x02 then ⟨.NotReady, false, 1⟩
      else ⟨.NotReady, false, 1⟩
    else ⟨.NotReady, false, 1⟩
  else if r1.senseData.senseKey = ScsiSenseKey.UnitAttention then
    if r2.success then ⟨.Ready, true, 2⟩ else ⟨.NotReady, false, 2⟩
  else if r1.senseData.senseKey = ScsiSenseKey.DataProtect then
    ⟨.WriteProtected, false, 1⟩
  else ⟨.Error, false, 1⟩

/-- Result of one `readBlock` call on an open device: the returned
`qint64`, the tracked block number afterwards, and whether `setError`
was invoked. -/
structure ReadBlockOutcome where
  ret : Int
  blockNumber : Nat
  errorRecorded : Bool
  deriving Repr, DecidableEq

/-- `TapeDevice::readBlock` (`TapeDevice.cpp:728-751`) on an open
device: issue READ(6) in variable-block mode (outcome `r`); on failure a
`BlankCheck` sense key returns 0 without recording an error, any other
failure records an error and returns -1; on success the tracked block
number advances by one and the byte count read is returned. -/
def readBlockModel (blockNumber : Nat) (r : ScsiCommandResult) : ReadBlockOutcome :=
  if ¬ r.success then
    if r.senseData.senseKey = ScsiSenseKey.BlankCheck then
      ⟨0, blockNumber, false⟩
    else
      ⟨-1, blockNumber, true⟩
  else
    ⟨(r.data.length : Int), blockNumber + 1, false⟩

/-! ## LOCATE(16) and `TapeDevice::locate` -/

/-- `DEFAULT_TIMEOUT` (`ScsiCommand.cpp:47`): a fresh `ScsiCommand` has
`timeoutSeconds = 60`, and nothing in the locate path changes it. -/
def SCSI_DEFAULT_TIMEOUT : Nat := 60

/-- A command as handed to the transport by `ScsiCommand::Private::execute`:
the CDB bytes and the timeout (the instance's `timeoutSeconds`). -/
structure ScsiRequest where
  cdb : List Nat
  timeoutSeconds : Nat
  deriving Repr, DecidableEq

/-- `ScsiCommand::locate16` (`ScsiCommand.cpp:548-567`): a 16-byte CDB
with opcode 0x92, byte 1 = 0x02 (logical position), byte 3 = partition,
bytes 4-11 the block number big-endian; executed with the instance's
current `timeoutSeconds` (`Private::execute` reads `timeoutSeconds`
directly; `locate16` does not override it). -/
def locate16Request (timeoutSeconds partition blockNumber : Nat) : ScsiRequest :=
  { cdb := [0x92, 0x02, 0x00, partition % 256,
            (blockNumber >>> 56) &&& 0xFF, (blockNumber >>> 48) &&& 0xFF,
            (blockNumber >>> 40) &&& 0xFF, (blockNumber >>> 32) &&& 0xFF,
            (blockNumber >>> 24) &&& 0xFF, (blockNumber >>> 16) &&& 0xFF,
            (blockNumber >>> 8) &&& 0xFF, blockNumber &&& 0xFF,
            0x00, 0x00, 0x00, 0x00]
    timeoutSeconds := timeoutSeconds }

/-- Result of one `TapeDevice::locate` call on an open device. -/
structure LocateOutcome where
  statusDuring : TapeStatus
  statusAfter : TapeStatus
  position : TapePosition
  request : ScsiRequest
  refreshRan : Bool
  errorRecorded : Bool
  returnValue : Bool
  deriving Repr, DecidableEq

/-- `TapeDevice::locate` (`TapeDevice.cpp:634-655`) on an open device:
set status `Locating`, issue `locate16`; on success update the tracked
position's partition and block number and set status `Ready`; on
failure record an error and re-run `refreshStatus` (whose outcome is
passed in as `refresh`), returning false. -/
def locateModel (timeoutSeconds : Nat) (pos : TapePosition)
    (partition blockNumber : Nat) (locateSucceeds : Bool)
    (refresh : RefreshOutcome) : LocateOutcome :=
  let req := locate16Request timeoutSeconds partition blockNumber
  if locateSucceeds then
    { statusDuring := .Locating, statusAfter := .Ready
      position := { pos with partition := partition, blockNumber := blockNumber }
      request := req, refreshRan := false, errorRecorded := false
      returnValue := true }
  else
    { statusDuring := .Locating, statusAfter := refresh.status
      position := pos
      request := req, refreshRan := true, errorRecorded := true
      returnValue := false }

/-- A standard 18-byte fixed-format sense buffer with sense key 3
(MediumError), ASC 0x11, ASCQ 0x00: response code 0x70, additional
sense length 10. -/
def fixedSenseExample : List Nat :=
  [0x70, 0, 0x03, 0, 0, 0, 0, 10, 0, 0, 0, 0, 0x11, 0x00, 0, 0, 0, 0]

/-- A 13-byte fixed-format sense buffer whose additional-sense-length
byte is 6: the guard `data.size() >= 13 && additionalLength >= 6` in
`fromRawData` passes and `bytes[13]` — one past the end — is read. -/
def senseOobExample : List Nat :=
  [0x70, 0, 0, 0, 0, 0, 0, 6, 0, 0, 0, 0, 0]

/-! ## Block manager (`io/BlockManager.cpp`, `io/BlockManager.h`) -/

def DEFAULT_BLOCK_SIZE : Nat := 512 * 1024
def MAX_BLOCK_SIZE : Nat := 4 * 1024 * 1024
def MIN_BLOCK_SIZE : Nat := 4 * 1024

/-- `BlockManager::isValidBlockSize` (`BlockManager.cpp:190-203`):
inside `[MIN_BLOCK_SIZE, MAX_BLOCK_SIZE]`, and a power of two
(`(size & (size - 1)) == 0`) or a multiple of `MIN_BLOCK_SIZE`. -/
def isValidBlockSize (size : Nat) : Bool :=
  if size < MIN_BLOCK_SIZE ∨ size > MAX_BLOCK_SIZE then false
  else if size &&& (size - 1) = 0 then true
  else size % MIN_BLOCK_SIZE = 0

/-- The mutable state of a `BlockManager` that `setBlockSize` touches. -/
structure BlockManagerState where
  blockSize : Nat := DEFAULT_BLOCK_SIZE
  deriving Repr, DecidableEq

/-- `BlockManager::setBlockSize` (`BlockManager.cpp:41-50`): reject
invalid sizes and keep the stored size, otherwise store the new size. -/
def setBlockSize (m : BlockManagerState) (size : Nat) : Bool × BlockManagerState :=
  if ¬ isValidBlockSize size then (false, m)
  else (true, { m with blockSize := size })

/-! ## Raw command execution (`ScsiCommand::executeRaw`,
`ScsiCommand::Private::execute`, `ScsiCommand.cpp:743-749, 210-372`) -/

/-- Whether `Private::execute` reached the transport ioctl, and the
request it submitted.  `executeRaw` forwards its arguments unchanged;
`Private::execute` returns early only when the device is not open and
performs no CDB length validation (`cmd_len`/`CdbLength` is the raw
`cdb.size()` cast to an unsigned char; the Windows branch copies
`qMin(cdb.size(), MAX_CDB_LENGTH)` CDB bytes). -/
structure RawExecuteOutcome where
  issued : Bool
  request : Option ScsiRequest
  deriving Repr, DecidableEq

/-- `ScsiCommand::executeRaw` = `Private::execute` on the supplied CDB:
no guard other than the open check. -/
def executeRawModel (isOpen : Bool) (timeoutSeconds : Nat) (cdb : List Nat) :
    RawExecuteOutcome :=
  if ¬ isOpen then ⟨false, none⟩
  else ⟨true, some { cdb := cdb, timeoutSeconds := timeoutSeconds }⟩

/-- Outcome of the platform backends' `executeCommand`
(`LinuxScsi.cpp:126-160`, `WinScsi.cpp:110-140`) as far as CDB length
validation is concerned. -/
inductive PlatformExecOutcome where
  | rejectedTooLong
  | issuedCmd
  deriving Repr, DecidableEq

/-- `LinuxScsi::executeCommand` / `WinScsi::executeCommand` reject a CDB
longer than 16 bytes with the error "CDB too long (max 16 bytes)" before
building the ioctl request; otherwise the command is issued. -/
def platformExecuteCommandModel (cdbLength : Nat) : PlatformExecOutcome :=
  if cdbLength > 16 then .rejectedTooLong else .issuedCmd

/-- A 17-byte all-zero CDB, longer than `MAX_CDB_LENGTH = 16`. -/
def oversizedCdbExample : List Nat := List.replicate 17 0

/-! ## Transfer orchestrator (`io/TapeIO.h`, `io/TapeIO.cpp`) -/

/-- `enum class TransferStatus` (`TapeIO.h:53-60`). -/
inductive TransferStatus where
  | Pending | InProgress | Completed | Failed | Skipped | Cancelled
  deriving Repr, DecidableEq

/-- Exit reason of the block-writing loop in `TapeIO::writeFileToTape`
(`TapeIO.cpp:531-568`), carrying `totalWritten` at exit. -/
inductive WriteLoopResult where
  | cancelledExit (bytesTransferred : Nat)
  | readFailed (bytesTransferred : Nat)
  | writeFailed (bytesTransferred : Nat)
  | atEnd (bytesTransferred : Nat)
  deriving Repr, DecidableEq

/-- The `while (!file.atEnd())` loop of `TapeIO::writeFileToTape`.
Per iteration (counted by `chunks`, the number of chunks successfully
written so far): check the cooperative `cancelled` flag; read the next
chunk of `min blockSize (fileSize - offset)` bytes (`readOk` false is
the empty-read-with-`file.error()` branch); an empty read without error
leaves the loop; `writeOk` false is `writeBlock` returning a negative
count.  The `paused` busy-wait is modelled as never pausing (the claim's
scenario leaves `paused` clear; cancellation during the wait exits with
the same `Cancelled` result).  `item.bytesTransferred` is kept equal to
`totalWritten` after every chunk, so each exit carries it. -/
def writeFileLoop (blockSize fileSize : Nat) (cancelled readOk writeOk : Nat → Bool)
    (offset totalWritten chunks : Nat) : WriteLoopResult :=
  if h : offset < fileSize then
    if cancelled chunks then .cancelledExit totalWritten
    else if ¬ readOk chunks then .readFailed totalWritten
    else
      let chunk := min blockSize (fileSize - offset)
      if hc : chunk = 0 then .atEnd totalWritten
      else if ¬ writeOk chunks then .writeFailed totalWritten
      else writeFileLoop blockSize fileSize cancelled readOk writeOk
        (offset + chunk) (totalWritten + chunk) (chunks + 1)
  else .atEnd totalWritten
  termination_by fileSize - offset
  decreasing_by simp at hc ⊢; omega

/-- Observable outcome of `TapeIO::writeFileToTape` for one file item:
final item status, `bytesTransferred`, and whether a filemark was
written after the file. -/
structure WriteFileOutcome where
  status : TransferStatus
  bytesTransferred : Nat
  filemarkWritten : Bool
  deriving Repr, DecidableEq

/-- `TapeIO::writeFileToTape` (`TapeIO.cpp:483-614`) for a
non-directory item on an opened source file after a successful
seek-to-end: run the chunk loop, and only when the loop reaches the end
of the file issue `writeFilemark(1)` (`filemarkOk` is that command's
outcome).  Cancellation and failures leave the loop before the filemark
is attempted. -/
def writeFileToTapeModel (blockSize fileSize : Nat)
    (cancelled readOk writeOk : Nat → Bool) (filemarkOk : Bool) :
    WriteFileOutcome :=
  match writeFileLoop blockSize fileSize cancelled readOk writeOk 0 0 0 with
  | .cancelledExit t => ⟨.Cancelled, t, false⟩
  | .readFailed t => ⟨.Failed, t, false⟩
  | .writeFailed t => ⟨.Failed, t, false⟩
  | .atEnd t => if filemarkOk then ⟨.Completed, t, true⟩ else ⟨.Failed, t, false⟩

/-- Result of one tape `readBlock` inside `TapeIO::readFileFromTape`:
a negative return (`fail`) or the byte count read (`bytes 0` is the
end-of-data break). -/
inductive TapeReadStep where
  | fail
  | bytes (n : Nat)
  deriving Repr, DecidableEq

/-- Exit reason of the block-reading loop in `TapeIO::readFileFromTape`
(`TapeIO.cpp:644-694`), carrying `totalRead` at exit. -/
inductive ReadLoopResult where
  | cancelledExit (totalRead : Nat)
  | tapeReadFailed (totalRead : Nat)
  | localWriteFailed (totalRead : Nat)
  | done (totalRead : Nat)
  deriving Repr, DecidableEq

/-- The `while (totalRead < expectedSize)` loop of
`TapeIO::readFileFromTape`.  Per iteration `i`: check the cooperative
`cancelled` flag; read one tape block (`step i`); a negative read is a
tape I/O failure, a zero read is the end-of-data break; otherwise write
the buffer to the destination file (`writeOk i`) and advance `totalRead`
by the bytes read.  The `paused` busy-wait is modelled as never pausing
as in `writeFileLoop`. -/
def readFileLoop (expectedSize : Nat) (cancelled : Nat → Bool)
    (step : Nat → TapeReadStep) (writeOk : Nat → Bool)
    (totalRead i : Nat) : ReadLoopResult :=
  if totalRead < expectedSize then
    if cancelled i then .cancelledExit totalRead
    else
      match step i with
      | .fail => .tapeReadFailed totalRead
      | .bytes 0 => .done totalRead
      | .bytes (n + 1) =>
        if ¬ writeOk i then .localWriteFailed totalRead
        else readFileLoop expectedSize cancelled step writeOk
          (totalRead + (n + 1)) (i + 1)
  else .done totalRead
  termination_by expectedSize - totalRead
  decreasing_by omega

/-- Error classification mirroring the distinct `item.errorMessage`
strings `readFileFromTape`/`verifyFileHash` assign: "Failed to create
directory", "Failed to create destination file", "Read error: …",
"Write error: …", "Hash calculation failed",
"Hash verification failed". -/
inductive TapeIOError where
  | noError
  | createDirFailed
  | createDestFailed
  | readError
  | writeError
  | hashCalcFailed
  | hashVerificationFailed
  deriving Repr, DecidableEq

/-- Observable outcome of `TapeIO::readFileFromTape` for one item:
final status, error classification, whether `QFile::remove(destPath)`
was called, and the boolean return. -/
structure ReadFileOutcome where
  status : TransferStatus
  errorMessage : TapeIOError
  destDeleted : Bool
  returnValue : Bool
  deriving Repr, DecidableEq

/-- `TapeIO::readFileFromTape` (`TapeIO.cpp:620-707`) followed by
`TapeIO::verifyFileHash` (`TapeIO.cpp:709-730`): create directories and
the destination file, run the read loop (deleting the partial
destination on cancellation, tape read failure and local write failure),
then — only when `verifyAfterWrite` is set and the item carries a
source hash — hash the completed destination file (`hashCalcOk`) and
compare it case-insensitively against the source hash (`hashMatches`).
A mismatch fails the item with the integrity-specific error and leaves
the destination file in place. -/
def readFileFromTapeModel (createDirs mkpathOk openOk : Bool)
    (expectedSize : Nat) (cancelled : Nat → Bool) (step : Nat → TapeReadStep)
    (writeOk : Nat → Bool) (verifyAfterWrite sourceHashEmpty : Bool)
    (hashCalcOk hashMatches : Bool) : ReadFileOutcome :=
  if createDirs ∧ ¬ mkpathOk then ⟨.Failed, .createDirFailed, false, false⟩
  else if ¬ openOk then ⟨.Failed, .createDestFailed, false, false⟩
  else
    match readFileLoop expectedSize cancelled step writeOk 0 0 with
    | .cancelledExit _ => ⟨.Cancelled, .noError, true, false⟩
    | .tapeReadFailed _ => ⟨.Failed, .readError, true, false⟩
    | .localWriteFailed _ => ⟨.Failed, .writeError, true, false⟩
    | .done _ =>
      if verifyAfterWrite ∧ ¬ sourceHashEmpty then
        if ¬ hashCalcOk then ⟨.Failed, .hashCalcFailed, false, false⟩
        else if ¬ hashMatches then ⟨.Failed, .hashVerificationFailed, false, false⟩
        else ⟨.Completed, .noError, false, true⟩
      else ⟨.Completed, .noError, false, true⟩

/-! ## LTFS index XML codec (`xml/IndexWriter.cpp`, `xml/IndexParser.cpp`)

The writer emits XML through `QXmlStreamWriter` and the parser consumes
the token stream of `QXmlStreamReader`; both Qt layers only move between
a well-formed document tree and bytes (escaping, quoting, whitespace),
so the embedding works on the element tree (`Xml`) directly and models
the Qt value conversions (`QString::number`, `toULongLong`,
`QDateTime::toString`/`fromString`, `QUuid::toString`/`fromString`,
`toLower`, `trimmed`) as Lean functions on strings. -/

/-- Decimal digit to its character, `'0' + d`. -/
def digitChar (d : Nat) : Char := Char.ofNat (48 + d)

/-- Lowercase hex digit to its character (`QUuid::toString` emits
lowercase hex). -/
def hexChar (d : Nat) : Char :=
  if d < 10 then Char.ofNat (48 + d) else Char.ofNat (87 + d)

def isDigitChar (c : Char) : Bool := 48 ≤ c.toNat ∧ c.toNat ≤ 57

def charDigit (c : Char) : Nat := c.toNat - 48

def isHexDigitChar (c : Char) : Bool :=
  isDigitChar c ∨ (97 ≤ c.toNat ∧ c.toNat ≤ 102) ∨ (65 ≤ c.toNat ∧ c.toNat ≤ 70)

def charHexVal (c : Char) : Nat :=
  if isDigitChar c then c.toNat - 48
  else if 97 ≤ c.toNat ∧ c.toNat ≤ 102 then c.toNat - 87
  else c.toNat - 55

/-- `QString::number` on an unsigned integer: most-significant-first
decimal digits, "0" for zero. -/
def natToString (n : Nat) : String :=
  if n = 0 then "0" else String.mk ((Nat.digits 10 n).reverse.map digitChar)

/-- Digit-string accumulation, `acc * 10 + digit` per character. -/
def parseDecDigits (cs : List Char) : Nat :=
  cs.foldl (fun acc c => acc * 10 + charDigit c) 0

/-- `QString::toULongLong` (and, for the non-negative values the index
stores, `toLongLong`): the parsed value of an all-digit non-empty
string, 0 otherwise (Qt returns 0 with `ok = false`). -/
def toULongLongModel (s : String) : Nat :=
  if s.data ≠ [] ∧ s.data.all isDigitChar then parseDecDigits s.data else 0

/-- Fixed-width big-endian digit rendering in an arbitrary base:
`padNumBase b toChar w n` is the `w` low base-`b` digits of `n`,
most significant first, e.g. zero-padded decimal for `toChar = digitChar`. -/
def padNumBase (base : Nat) (toChar : Nat → Char) : Nat → Nat → List Char
  | 0, _ => []
  | w + 1, n => toChar (n / base ^ w % base) :: padNumBase base toChar w n

/-- Fixed-width digit parsing in an arbitrary base: consume exactly `w`
digit characters, fail otherwise. -/
def takeNumAux (base : Nat) (isD : Char → Bool) (val : Char → Nat) :
    Nat → Nat → List Char → Option (Nat × List Char)
  | 0, acc, cs => some (acc, cs)
  | w + 1, acc, cs =>
    match cs with
    | [] => none
    | c :: rest =>
      if isD c then takeNumAux base isD val w (acc * base + val c) rest
      else none

/-- Zero-padded decimal of fixed width (the `yyyy`/`MM`/`dd`/… fields
of `QDateTime::toString` and the `.zzz` milliseconds). -/
def padDec (w n : Nat) : List Char := padNumBase 10 digitChar w n

def takeDec (w : Nat) (cs : List Char) : Option (Nat × List Char) :=
  takeNumAux 10 isDigitChar charDigit w 0 cs

def padHex (w n : Nat) : List Char := padNumBase 16 hexChar w n

def takeHex (w : Nat) (cs : List Char) : Option (Nat × List Char) :=
  takeNumAux 16 isHexDigitChar charHexVal w 0 cs

/-- Modelled from the spec: the index stores timestamps as UTC instants
with millisecond precision (`QDateTime` in Qt; `core/LtfsTypes.h` with
the model types is not among the provided sources).  The record carries
the broken-down UTC fields that `yyyy-MM-ddTHH:mm:ss.zzz` renders. -/
structure Timestamp where
  year : Nat := 0
  month : Nat := 0
  day : Nat := 0
  hour : Nat := 0
  minute : Nat := 0
  second : Nat := 0
  msec : Nat := 0
  deriving Repr, DecidableEq

def isLeapYear (y : Nat) : Bool := (y % 4 = 0 ∧ y % 100 ≠ 0) ∨ y % 400 = 0

def daysInMonth (y m : Nat) : Nat :=
  if m = 2 then (if isLeapYear y then 29 else 28)
  else if m = 4 ∨ m = 6 ∨ m = 9 ∨ m = 11 then 30
  else 31

/-- `QDateTime`/`QDate`/`QTime` validity for the fields the codec
round-trips: calendar-valid date in years 1..9999, valid time of day,
milliseconds below one second. -/
def Timestamp.isValid (t : Timestamp) : Bool :=
  1 ≤ t.year ∧ t.year ≤ 9999 ∧ 1 ≤ t.month ∧ t.month ≤ 12 ∧
  1 ≤ t.day ∧ t.day ≤ daysInMonth t.year t.month ∧
  t.hour ≤ 23 ∧ t.minute ≤ 59 ∧ t.second ≤ 59 ∧ t.msec ≤ 999

/-- `IndexWriter::formatTimestamp` on a valid UTC timestamp
(`IndexWriter.cpp:327-346`): `yyyy-MM-ddTHH:mm:ss`, a 3-digit
zero-padded `.zzz` block only when the millisecond field is positive,
then `Z`.  (An invalid `QDateTime` is re-entered with the current time;
the round-trip theorems require validity instead.) -/
def formatTimestamp (t : Timestamp) : String :=
  String.mk (padDec 4 t.year ++ ('-' :: (padDec 2 t.month ++ ('-' :: (padDec 2 t.day ++
    ('T' :: (padDec 2 t.hour ++ (':' :: (padDec 2 t.minute ++ (':' :: (padDec 2 t.second ++
    ((if 0 < t.msec then '.' :: padDec 3 t.msec else []) ++ ['Z']))))))))))))

def expectChar (ch : Char) : List Char → Option (List Char)
  | [] => none
  | c :: rest => if c = ch then some rest else none

/-- Modelled from Qt: the acceptance of `IndexParser::parseTimestamp`'s
four-stage fallback chain (`Qt::ISODateWithMs`, `Qt::ISODate`, the two
explicit `yyyy-MM-ddTHH:mm:ss[.zzz]` formats with the `Z` stripped)
on the grammar the writer emits: `yyyy-MM-ddTHH:mm:ss`, optional
`.zzz`, optional `Z`, with `QDateTime` field validity, always asserted
as UTC. -/
def parseIsoTimestamp (cs : List Char) : Option Timestamp :=
  match takeDec 4 cs with
  | none => none
  | some (y, cs) =>
  match expectChar '-' cs with
  | none => none
  | some cs =>
  match takeDec 2 cs with
  | none => none
  | some (mo, cs) =>
  match expectChar '-' cs with
  | none => none
  | some cs =>
  match takeDec 2 cs with
  | none => none
  | some (d, cs) =>
  match expectChar 'T' cs with
  | none => none
  | some cs =>
  match takeDec 2 cs with
  | none => none
  | some (h, cs) =>
  match expectChar ':' cs with
  | none => none
  | some cs =>
  match takeDec 2 cs with
  | none => none
  | some (mi, cs) =>
  match expectChar ':' cs with
  | none => none
  | some cs =>
  match takeDec 2 cs with
  | none => none
  | some (s, cs) =>
  match (match cs with
         | '.' :: rest => takeDec 3 rest
         | _ => some (0, cs)) with
  | none => none
  | some (ms, cs) =>
  match cs with
  | ['Z'] =>
    if (Timestamp.mk y mo d h mi s ms).isValid then some ⟨y, mo, d, h, mi, s, ms⟩ else none
  | [] =>
    if (Timestamp.mk y mo d h mi s ms).isValid then some ⟨y, mo, d, h, mi, s, ms⟩ else none
  | _ => none

/-- `IndexParser::parseTimestamp` (`IndexParser.cpp:398-431`): parse via
the fallback chain; an unparseable string falls back to the current
time (`now`). -/
def parseTimestampChain (now : Timestamp) (s : String) : Timestamp :=
  match parseIsoTimestamp s.data with
  | some t => t
  | none => now

/-- Modelled from the spec: `QUuid` (the index's `volumeuuid`), as the
five canonical hex groups `8-4-4-4-12`. -/
structure QUuidModel where
  g1 : Nat := 0
  g2 : Nat := 0
  g3 : Nat := 0
  g4 : Nat := 0
  g5 : Nat := 0
  deriving Repr, DecidableEq

def QUuidModel.bounded (u : QUuidModel) : Prop :=
  u.g1 < 16 ^ 8 ∧ u.g2 < 16 ^ 4 ∧ u.g3 < 16 ^ 4 ∧ u.g4 < 16 ^ 4 ∧ u.g5 < 16 ^ 12

/-- `QUuid::toString(QUuid::WithoutBraces)`: lowercase
`xxxxxxxx-xxxx-xxxx-xxxx-xxxxxxxxxxxx`. -/
def uuidToString (u : QUuidModel) : String :=
  String.mk (padHex 8 u.g1 ++ ('-' :: (padHex 4 u.g2 ++ ('-' :: (padHex 4 u.g3 ++
    ('-' :: (padHex 4 u.g4 ++ ('-' :: padHex 12 u.g5))))))))

/-- `QUuid::fromString` on the canonical unbraced form; an unparseable
string yields the null UUID. -/
def uuidFromString (s : String) : QUuidModel :=
  match takeHex 8 s.data with
  | none => {}
  | some (a, cs) =>
  match expectChar '-' cs with
  | none => {}
  | some cs =>
  match takeHex 4 cs with
  | none => {}
  | some (b, cs) =>
  match expectChar '-' cs with
  | none => {}
  | some cs =>
  match takeHex 4 cs with
  | none => {}
  | some (c, cs) =>
  match expectChar '-' cs with
  | none => {}
  | some cs =>
  match takeHex 4 cs with
  | none => {}
  | some (d, cs) =>
  match expectChar '-' cs with
  | none => {}
  | some cs =>
  match takeHex 12 cs with
  | none => {}
  | some (e, cs) =>
  if cs = [] then ⟨a, b, c, d, e⟩ else {}

/-- A well-formed XML element tree: what `QXmlStreamWriter` serialises
and `QXmlStreamReader` tokenises (attributes appear only on the
document root in this codec and are carried by `XmlDoc`). -/
inductive Xml where
  | elem (name : String) (children : List Xml)
  | text (s : String)
  deriving Repr

/-- The document: root element name, its `version` attribute, and its
children.  The writer also declares the LTFS default namespace on the
root; the parser never reads it, so it is not carried. -/
structure XmlDoc where
  rootName : String
  versionAttr : String
  children : List Xml
  deriving Repr

/-- `QXmlStreamWriter::writeTextElement`. -/
def textElem (name s : String) : Xml := .elem name [.text s]

/-- `QXmlStreamReader::readElementText(SkipChildElements)`: the
concatenated character data directly inside the element. -/
def elemText (cs : List Xml) : String :=
  cs.foldl (fun acc x => match x with | .text s => acc ++ s | .elem _ _ => acc) ""

/-- Modelled from the spec: `PartitionLabel` (`core/LtfsTypes.h` is not
among the provided sources) — the index (`a`) and data (`b`)
partitions. -/
inductive PartitionLabel where
  | IndexPartition
  | DataPartition
  deriving Repr, DecidableEq

/-- `IndexWriter::formatPartition` (`IndexWriter.cpp:348-357`). -/
def formatPartition : PartitionLabel → String
  | .IndexPartition => "a"
  | .DataPartition => "b"

/-- `IndexWriter::formatBoolean` (`IndexWriter.cpp:359-362`). -/
def formatBoolean (b : Bool) : String := if b then "true" else "false"

/-- `QString::toLower` on ASCII. -/
def qtLowerChar (c : Char) : Char :=
  if 65 ≤ c.toNat ∧ c.toNat ≤ 90 then Char.ofNat (c.toNat + 32) else c

def qtToLower (s : String) : String := String.mk (s.data.map qtLowerChar)

def isQtSpace (c : Char) : Bool := c = ' ' ∨ c = '\t' ∨ c = '\n' ∨ c = '\r'

/-- `QString::trimmed`. -/
def qtTrim (s : String) : String :=
  String.mk (((s.data.dropWhile isQtSpace).reverse.dropWhile isQtSpace).reverse)

/-- `IndexParser::parsePartition` (`IndexParser.cpp:433-443`): after
lower-casing and trimming, `a`/`0` is the index partition, `b`/`1` the
data partition, anything else defaults to the data partition. -/
def parsePartition (text : String) : PartitionLabel :=
  let lower := qtTrim (qtToLower text)
  if lower = "a" ∨ lower = "0" then .IndexPartition
  else if lower = "b" ∨ lower = "1" then .DataPartition
  else .DataPartition

/-- `readElementText(xml).toLower() == QLatin1String("true")`, the
boolean decoding used for `readonly` and `allowpolicyupdate`. -/
def parseBooleanText (s : String) : Bool := qtToLower s = "true"

/-! ### LTFS index data model

Modelled from the spec (§3): the model classes live in `core/LtfsIndex.h`
and `core/LtfsTypes.h`, which are not among the provided sources; fields
and defaults follow the spec's records, with getter/setter calls in the
embedded writer/parser mapped to plain field access/update.  Integer
fields hold the non-negative values the on-tape format stores and are
modelled as `Nat`. -/

structure ExtendedAttribute where
  key : String := ""
  value : String := ""
  deriving Repr, DecidableEq

structure LocationData where
  partition : PartitionLabel := .IndexPartition
  startBlock : Nat := 0
  deriving Repr, DecidableEq

structure LtfsExtent where
  partition : PartitionLabel := .DataPartition
  startBlock : Nat := 0
  fileOffset : Nat := 0
  byteOffset : Nat := 0
  byteCount : Nat := 0
  deriving Repr, DecidableEq

structure LtfsFile where
  name : String := ""
  uid : Nat := 0
  length : Nat := 0
  readonly : Bool := false
  creationTime : Timestamp := {}
  changeTime : Timestamp := {}
  modifyTime : Timestamp := {}
  accessTime : Timestamp := {}
  backupTime : Option Timestamp := none
  extendedAttributes : List ExtendedAttribute := []
  extentInfo : List LtfsExtent := []
  deriving Repr, DecidableEq

inductive LtfsDirectory where
  | mk (name : String) (uid : Nat) (readonly : Bool)
      (creationTime changeTime modifyTime accessTime : Timestamp)
      (backupTime : Option Timestamp)
      (extendedAttributes : List ExtendedAttribute)
      (files : List LtfsFile)
      (subdirectories : List LtfsDirectory)
  deriving Repr

def LtfsDirectory.name : LtfsDirectory → String
  | .mk n _ _ _ _ _ _ _ _ _ _ => n

def LtfsDirectory.uid : LtfsDirectory → Nat
  | .mk _ u _ _ _ _ _ _ _ _ _ => u

def LtfsDirectory.readonly : LtfsDirectory → Bool
  | .mk _ _ r _ _ _ _ _ _ _ _ => r

def LtfsDirectory.creationTime : LtfsDirectory → Timestamp
  | .mk _ _ _ c _ _ _ _ _ _ _ => c

def LtfsDirectory.changeTime : LtfsDirectory → Timestamp
  | .mk _ _ _ _ c _ _ _ _ _ _ => c

def LtfsDirectory.modifyTime : LtfsDirectory → Timestamp
  | .mk _ _ _ _ _ m _ _ _ _ _ => m

def LtfsDirectory.accessTime : LtfsDirectory → Timestamp
  | .mk _ _ _ _ _ _ a _ _ _ _ => a

def LtfsDirectory.backupTime : LtfsDirectory → Option Timestamp
  | .mk _ _ _ _ _ _ _ b _ _ _ => b

def LtfsDirectory.extendedAttributes : LtfsDirectory → List ExtendedAttribute
  | .mk _ _ _ _ _ _ _ _ x _ _ => x

def LtfsDirectory.files : LtfsDirectory → List LtfsFile
  | .mk _ _ _ _ _ _ _ _ _ f _ => f

def LtfsDirectory.subdirectories : LtfsDirectory → List LtfsDirectory
  | .mk _ _ _ _ _ _ _ _ _ _ s => s

def LtfsDirectory.setName : LtfsDirectory → String → LtfsDirectory
  | .mk _ u r c ch m a b x f s, n => .mk n u r c ch m a b x f s

def LtfsDirectory.setUid : LtfsDirectory → Nat → LtfsDirectory
  | .mk n _ r c ch m a b x f s, u => .mk n u r c ch m a b x f s

def LtfsDirectory.setReadonly : LtfsDirectory → Bool → LtfsDirectory
  | .mk n u _ c ch m a b x f s, r => .mk n u r c ch m a b x f s

def LtfsDirectory.setCreationTime : LtfsDirectory → Timestamp → LtfsDirectory
  | .mk n u r _ ch m a b x f s, c => .mk n u r c ch m a b x f s

def LtfsDirectory.setChangeTime : LtfsDirectory → Timestamp → LtfsDirectory
  | .mk n u r c _ m a b x f s, ch => .mk n u r c ch m a b x f s

def LtfsDirectory.setModifyTime : LtfsDirectory → Timestamp → LtfsDirectory
  | .mk n u r c ch _ a b x f s, m => .mk n u r c ch m a b x f s

def LtfsDirectory.setAccessTime : LtfsDirectory → Timestamp → LtfsDirectory
  | .mk n u r c ch m _ b x f s, a => .mk n u r c ch m a b x f s

def LtfsDirectory.setBackupTime : LtfsDirectory → Timestamp → LtfsDirectory
  | .mk n u r c ch m a _ x f s, b => .mk n u r c ch m a (some b) x f s

def LtfsDirectory.setExtendedAttributes :
    LtfsDirectory → List ExtendedAttribute → LtfsDirectory
  | .mk n u r c ch m a b _ f s, x => .mk n u r c ch m a b x f s

def LtfsDirectory.addFile : LtfsDirectory → LtfsFile → LtfsDirectory
  | .mk n u r c ch m a b x f s, fl => .mk n u r c ch m a b x (f ++ [fl]) s

def LtfsDirectory.addSubdirectory : LtfsDirectory → LtfsDirectory → LtfsDirectory
  | .mk n u r c ch m a b x f s, d => .mk n u r c ch m a b x f (s ++ [d])

/-- The default-constructed directory (`LtfsDirectory rootDir;`). -/
def emptyDirectory : LtfsDirectory := .mk "" 0 false {} {} {} {} none [] [] []

structure LtfsIndex where
  version : String := ""
  creator : String := ""
  volumeUuid : QUuidModel := {}
  generationNumber : Nat := 0
  updateTime : Timestamp := {}
  selfLocation : LocationData := {}
  previousGenerationLocation : LocationData := {}
  allowPolicyUpdate : Bool := false
  highestFileUid : Nat := 0
  rootDirectory : LtfsDirectory := emptyDirectory
  deriving Repr

/-! ### Index writer (`IndexWriter.cpp:160-325`) -/

/-- `IndexWriter::writeExtent` (`IndexWriter.cpp:285-296`). -/
def writeExtentX (e : LtfsExtent) : Xml :=
  .elem "extent"
    [textElem "partition" (formatPartition e.partition),
     textElem "startblock" (natToString e.startBlock),
     textElem "fileoffset" (natToString e.fileOffset),
     textElem "byteoffset" (natToString e.byteOffset),
     textElem "bytecount" (natToString e.byteCount)]

/-- `IndexWriter::writeExtendedAttribute` (`IndexWriter.cpp:298-306`). -/
def writeExtendedAttributeX (a : ExtendedAttribute) : Xml :=
  .elem "extendedattribute" [textElem "key" a.key, textElem "value" a.value]

/-- `IndexWriter::writeLocation` (`IndexWriter.cpp:308-316`). -/
def writeLocationX (elementName : String) (loc : LocationData) : Xml :=
  .elem elementName
    [textElem "partition" (formatPartition loc.partition),
     textElem "startblock" (natToString loc.startBlock)]

/-- `IndexWriter::writeFile` (`IndexWriter.cpp:242-283`): name, uid
(only when positive), length, readonly, the four timestamps, backup
time when valid, extended attributes, and a single `extentinfo` block
(omitted when the extent list is empty) listing the extents in order. -/
def writeFileChildren (f : LtfsFile) : List Xml :=
    ([textElem "name" f.name] ++
     (if 0 < f.uid then [textElem "uid" (natToString f.uid)] else []) ++
     [textElem "length" (natToString f.length),
      textElem "readonly" (formatBoolean f.readonly),
      textElem "creationtime" (formatTimestamp f.creationTime),
      textElem "changetime" (formatTimestamp f.changeTime),
      textElem "modifytime" (formatTimestamp f.modifyTime),
      textElem "accesstime" (formatTimestamp f.accessTime)] ++
     (match f.backupTime with
      | some t => [textElem "backuptime" (formatTimestamp t)]
      | none => []) ++
     f.extendedAttributes.map writeExtendedAttributeX ++
     (if f.extentInfo.isEmpty then []
      else [.elem "extentinfo" (f.extentInfo.map writeExtentX)]))

def writeFileX (f : LtfsFile) : Xml := .elem "file" (writeFileChildren f)

/-- `IndexWriter::writeDirectory` (`IndexWriter.cpp:200-240`): name,
uid (only when positive), readonly, the four timestamps, backup time
when valid, extended attributes, files, then subdirectories. -/
def writeDirectoryX : LtfsDirectory → Xml
  | .mk name uid readonly ct cht mt act bt xattrs files subdirs =>
    .elem "directory"
      ([textElem "name" name] ++
       (if 0 < uid then [textElem "uid" (natToString uid)] else []) ++
       [textElem "readonly" (formatBoolean readonly),
        textElem "creationtime" (formatTimestamp ct),
        textElem "changetime" (formatTimestamp cht),
        textElem "modifytime" (formatTimestamp mt),
        textElem "accesstime" (formatTimestamp act)] ++
       (match bt with
        | some t => [textElem "backuptime" (formatTimestamp t)]
        | none => []) ++
       xattrs.map writeExtendedAttributeX ++
       files.map writeFileX ++
       subdirs.attach.map (fun d => writeDirectoryX d.1))
  decreasing_by
    have h := List.sizeOf_lt_of_mem d.2
    simp only [LtfsDirectory.mk.sizeOf_spec]
    omega

/-- `IndexWriter::writeIndex` (`IndexWriter.cpp:160-198`): the
`ltfsindex` root carries the version attribute (defaulting to `2.4.0`
when the model's version string is empty) and, in order: creator,
volume UUID, generation number, update time, self location, the
previous-generation location only when its start block is positive,
allow-policy-update, highest file UID, then the root directory. -/
def writeIndexDoc (idx : LtfsIndex) : XmlDoc :=
  { rootName := "ltfsindex"
    versionAttr := if idx.version = "" then "2.4.0" else idx.version
    children :=
      [textElem "creator" idx.creator,
       textElem "volumeuuid" (uuidToString idx.volumeUuid),
       textElem "generationnumber" (natToString idx.generationNumber),
       textElem "updatetime" (formatTimestamp idx.updateTime),
       writeLocationX "location" idx.selfLocation] ++
      (if 0 < idx.previousGenerationLocation.startBlock then
        [writeLocationX "previousgenerationlocation" idx.previousGenerationLocation]
      else []) ++
      [textElem "allowpolicyupdate" (formatBoolean idx.allowPolicyUpdate),
       textElem "highestfileuid" (natToString idx.highestFileUid),
       writeDirectoryX idx.rootDirectory] }

/-! ### Index parser (`IndexParser.cpp:108-396`)

Each `parse*` routine of the source is a loop over the
`QXmlStreamReader` token stream that dispatches on element names,
consuming a recognised element's whole subtree through
`readElementText` or a sub-parser and returning at its own end
element.  On the element tree this is a left fold over the children.
A start element no branch recognises is left unconsumed by the source
loops, which therefore descend into its children with the same
dispatch; the embedding instead skips unrecognised elements, which
agrees with the token semantics on every document the writer emits
(writer output contains no element outside the dispatched vocabulary,
and `extentinfo` — the one container the file loop deliberately falls
through — is modelled explicitly with the extent dispatch applied to
its children). -/

def parseLocationChildren : List Xml → LocationData → LocationData
  | [], loc => loc
  | .text _ :: rest, loc => parseLocationChildren rest loc
  | .elem n cs :: rest, loc =>
    if n = "partition" then
      parseLocationChildren rest { loc with partition := parsePartition (elemText cs) }
    else if n = "startblock" then
      parseLocationChildren rest { loc with startBlock := toULongLongModel (elemText cs) }
    else parseLocationChildren rest loc

def parseExtentChildren : List Xml → LtfsExtent → LtfsExtent
  | [], e => e
  | .text _ :: rest, e => parseExtentChildren rest e
  | .elem n cs :: rest, e =>
    if n = "partition" then
      parseExtentChildren rest { e with partition := parsePartition (elemText cs) }
    else if n = "startblock" then
      parseExtentChildren rest { e with startBlock := toULongLongModel (elemText cs) }
    else if n = "fileoffset" then
      parseExtentChildren rest { e with fileOffset := toULongLongModel (elemText cs) }
    else if n = "byteoffset" then
      parseExtentChildren rest { e with byteOffset := toULongLongModel (elemText cs) }
    else if n = "bytecount" then
      parseExtentChildren rest { e with byteCount := toULongLongModel (elemText cs) }
    else parseExtentChildren rest e

def parseExtendedAttributeChildren : List Xml → ExtendedAttribute → ExtendedAttribute
  | [], a => a
  | .text _ :: rest, a => parseExtendedAttributeChildren rest a
  | .elem n cs :: rest, a =>
    if n = "key" then
      parseExtendedAttributeChildren rest { a with key := elemText cs }
    else if n = "value" then
      parseExtendedAttributeChildren rest { a with value := elemText cs }
    else parseExtendedAttributeChildren rest a

/-- The `extentinfo` container's children run through the file loop's
dispatch, of which only the `extent` branch applies on writer output. -/
def parseExtentInfoChildren : List Xml → List LtfsExtent → List LtfsExtent
  | [], acc => acc
  | .text _ :: rest, acc => parseExtentInfoChildren rest acc
  | .elem n cs :: rest, acc =>
    if n = "extent" then
      parseExtentInfoChildren rest (acc ++ [parseExtentChildren cs {}])
    else parseExtentInfoChildren rest acc

/-- One step of the `IndexParser::parseFile` loop body
(`IndexParser.cpp:270-321`): the file being filled plus the local
`extents` accumulator the source assigns at the end element. -/
def parseFileStep (now : Timestamp) (st : LtfsFile × List LtfsExtent) (x : Xml) :
    LtfsFile × List LtfsExtent :=
  match x with
  | .text _ => st
  | .elem n cs =>
    let f := st.1
    let acc := st.2
    if n = "name" then ({ f with name := elemText cs }, acc)
    else if n = "readonly" then ({ f with readonly := parseBooleanText (elemText cs) }, acc)
    else if n = "creationtime" then
      ({ f with creationTime := parseTimestampChain now (elemText cs) }, acc)
    else if n = "changetime" then
      ({ f with changeTime := parseTimestampChain now (elemText cs) }, acc)
    else if n = "modifytime" then
      ({ f with modifyTime := parseTimestampChain now (elemText cs) }, acc)
    else if n = "accesstime" then
      ({ f with accessTime := parseTimestampChain now (elemText cs) }, acc)
    else if n = "backuptime" then
      ({ f with backupTime := some (parseTimestampChain now (elemText cs)) }, acc)
    else if n = "length" then ({ f with length := toULongLongModel (elemText cs) }, acc)
    else if n = "uid" then ({ f with uid := toULongLongModel (elemText cs) }, acc)
    else if n = "extentinfo" then (f, parseExtentInfoChildren cs acc)
    else if n = "extent" then (f, acc ++ [parseExtentChildren cs {}])
    else if n = "extendedattribute" then
      ({ f with extendedAttributes :=
          f.extendedAttributes ++ [parseExtendedAttributeChildren cs {}] }, acc)
    else st

/-- The `IndexParser::parseFile` token loop over an element's children. -/
def parseFileChildren (now : Timestamp) (cs : List Xml)
    (st : LtfsFile × List LtfsExtent) : LtfsFile × List LtfsExtent :=
  cs.foldl (parseFileStep now) st

/-- `IndexParser::parseFile` (`IndexParser.cpp:270-321`): run the loop
on a default `LtfsFile` with an empty extent accumulator and store the
accumulated extents on the file at the end element. -/
def parseFileFromChildren (now : Timestamp) (cs : List Xml) : LtfsFile :=
  let st := parseFileChildren now cs ({}, [])
  { st.1 with extentInfo := st.2 }

mutual

/-- One step of the `IndexParser::parseDirectory` loop
(`IndexParser.cpp:218-268`). -/
def parseDirectoryStep (now : Timestamp) (d : LtfsDirectory) (x : Xml) :
    LtfsDirectory :=
  match x with
  | .text _ => d
  | .elem n cs =>
    if n = "name" then d.setName (elemText cs)
    else if n = "readonly" then d.setReadonly (parseBooleanText (elemText cs))
    else if n = "creationtime" then d.setCreationTime (parseTimestampChain now (elemText cs))
    else if n = "changetime" then d.setChangeTime (parseTimestampChain now (elemText cs))
    else if n = "modifytime" then d.setModifyTime (parseTimestampChain now (elemText cs))
    else if n = "accesstime" then d.setAccessTime (parseTimestampChain now (elemText cs))
    else if n = "backuptime" then d.setBackupTime (parseTimestampChain now (elemText cs))
    else if n = "uid" then d.setUid (toULongLongModel (elemText cs))
    else if n = "file" then d.addFile (parseFileFromChildren now cs)
    else if n = "directory" then
      d.addSubdirectory (parseDirectoryChildren now cs emptyDirectory)
    else if n = "extendedattribute" then
      d.setExtendedAttributes
        (d.extendedAttributes ++ [parseExtendedAttributeChildren cs {}])
    else d

/-- The `IndexParser::parseDirectory` token loop over an element's
children. -/
def parseDirectoryChildren (now : Timestamp) (cs : List Xml)
    (d : LtfsDirectory) : LtfsDirectory :=
  match cs with
  | [] => d
  | x :: rest => parseDirectoryChildren now rest (parseDirectoryStep now d x)

end

/-- One step of the `IndexParser::parseIndex` loop
(`IndexParser.cpp:169-216`). -/
def parseIndexStep (now : Timestamp) (idx : LtfsIndex) (x : Xml) : LtfsIndex :=
  match x with
  | .text _ => idx
  | .elem n cs =>
    if n = "creator" then { idx with creator := elemText cs }
    else if n = "volumeuuid" then { idx with volumeUuid := uuidFromString (elemText cs) }
    else if n = "generationnumber" then
      { idx with generationNumber := toULongLongModel (elemText cs) }
    else if n = "updatetime" then
      { idx with updateTime := parseTimestampChain now (elemText cs) }
    else if n = "location" then { idx with selfLocation := parseLocationChildren cs {} }
    else if n = "previousgenerationlocation" then
      { idx with previousGenerationLocation := parseLocationChildren cs {} }
    else if n = "allowpolicyupdate" then
      { idx with allowPolicyUpdate := parseBooleanText (elemText cs) }
    else if n = "highestfileuid" then
      { idx with highestFileUid := toULongLongModel (elemText cs) }
    else if n = "directory" then
      { idx with rootDirectory := parseDirectoryChildren now cs emptyDirectory }
    else idx

/-- The `IndexParser::parseIndex` token loop over the root's children. -/
def parseIndexChildren (now : Timestamp) (cs : List Xml) (idx : LtfsIndex) :
    LtfsIndex :=
  cs.foldl (parseIndexStep now) idx

/-- `IndexParser::parse` (`IndexParser.cpp:108-137`): scan for the
`ltfsindex` root, take its `version` attribute, and fill a
default-constructed index from its children. -/
def parseIndexDocModel (now : Timestamp) (doc : XmlDoc) : LtfsIndex :=
  if doc.rootName = "ltfsindex" then
    parseIndexChildren now doc.children { version := doc.versionAttr }
  else {}

/-- Validity of one file's timestamp fields, the hypotheses under which
the writer's timestamp strings parse back exactly. -/
def FileOk (f : LtfsFile) : Prop :=
  f.creationTime.isValid = true ∧ f.changeTime.isValid = true ∧
  f.modifyTime.isValid = true ∧ f.accessTime.isValid = true ∧
  ∀ t, f.backupTime = some t → t.isValid = true

/-! # Theorems -/

/-- Clearing rule used by the power-of-two bit test: an even number
`2 * m` (`m ≥ 1`) satisfies `n &&& (n - 1) = 2 * (m &&& (m - 1))`. -/
theorem two_mul_and_pred (m : Nat) (hm : 0 < m) :
    (2 * m) &&& (2 * m - 1) = 2 * (m &&& (m - 1)) := by
  have h1 : 2 * m - 1 = 2 * (m - 1) + 1 := by omega
  have h2 := Nat.land_bit false m true (m - 1)
  simp only [Nat.bit_false, Nat.bit_true, Bool.false_and] at h2
  rw [h1, h2]

/-- An odd number `2 * m + 1` satisfies `n &&& (n - 1) = 2 * m`. -/
theorem two_mul_add_one_and_pred (m : Nat) :
    (2 * m + 1) &&& (2 * m + 1 - 1) = 2 * m := by
  have h2 := Nat.land_bit true m false m
  simp [Nat.bit_false, Nat.bit_true] at h2
  simp [h2]

/-- The C++ bit test `(size & (size - 1)) == 0` detects powers of two:
a positive number passing it is `2 ^ k` for some `k`. -/
theorem pow2_of_and_pred_eq_zero :
    ∀ n, 0 < n → n &&& (n - 1) = 0 → ∃ k, n = 2 ^ k := by
  intro n
  induction n using Nat.strong_induction_on with
  | _ n ih =>
    intro hpos hand
    rcases Nat.even_or_odd n with he | ho
    · obtain ⟨m, hm⟩ := he
      have hn2 : n = 2 * m := by omega
      have hmpos : 0 < m := by omega
      rw [hn2, two_mul_and_pred m hmpos] at hand
      have : m &&& (m - 1) = 0 := by omega
      obtain ⟨k, hk⟩ := ih m (by omega) hmpos this
      exact ⟨k + 1, by rw [hn2, hk]; ring⟩
    · obtain ⟨m, hm⟩ := ho
      rcases Nat.eq_zero_or_pos m with h0 | hmpos
      · exact ⟨0, by omega⟩
      · rw [hm, two_mul_add_one_and_pred m] at hand
        omega

/-- Conversely, `2 ^ k` passes the bit test. -/
theorem and_pred_eq_zero_of_pow2 (k : Nat) : 2 ^ k &&& (2 ^ k - 1) = 0 := by
  have h := Nat.and_pow_two_sub_one_eq_mod (2 ^ k) k
  rw [h, Nat.mod_self]

/-- Characterisation of `BlockManager::isValidBlockSize`: within
[4 KiB, 4 MiB] and a power of two or a multiple of 4 KiB. -/
theorem isValidBlockSize_iff (size : Nat) :
    QLTFS.isValidBlockSize size = true ↔
      (QLTFS.MIN_BLOCK_SIZE ≤ size ∧ size ≤ QLTFS.MAX_BLOCK_SIZE ∧
        ((∃ k, size = 2 ^ k) ∨ size % QLTFS.MIN_BLOCK_SIZE = 0)) := by
  unfold QLTFS.isValidBlockSize QLTFS.MIN_BLOCK_SIZE QLTFS.MAX_BLOCK_SIZE
  by_cases hr : size < 4 * 1024 ∨ size > 4 * 1024 * 1024
  · rw [if_pos hr]
    constructor
    · intro h; cases h
    · rintro ⟨h1, h2, _⟩; omega
  · rw [if_neg hr]
    push_neg at hr
    by_cases hb : size &&& (size - 1) = 0
    · rw [if_pos hb]
      constructor
      · intro _
        exact ⟨hr.1, hr.2, Or.inl (pow2_of_and_pred_eq_zero size (by omega) hb)⟩
      · intro _; rfl
    · rw [if_neg hb]
      constructor
      · intro h
        exact ⟨hr.1, hr.2, Or.inr (by simpa using h)⟩
      · rintro ⟨h1, h2, ⟨k, hk⟩ | hmod⟩
        · exact absurd (hk ▸ and_pred_eq_zero_of_pow2 k) hb
        · simpa using hmod

/-- C8.  `BlockManager::setBlockSize` accepts a size if and only if it
lies within [4 KiB, 4 MiB] and is a power of two or a multiple of
4 KiB; for every rejected size it returns false and leaves the stored
block size unchanged. -/
theorem setBlockSize_accepts_iff (m : QLTFS.BlockManagerState) (size : Nat) :
    ((QLTFS.setBlockSize m size).1 = true ↔
      (QLTFS.MIN_BLOCK_SIZE ≤ size ∧ size ≤ QLTFS.MAX_BLOCK_SIZE ∧
        ((∃ k, size = 2 ^ k) ∨ size % QLTFS.MIN_BLOCK_SIZE = 0))) ∧
    ((QLTFS.setBlockSize m size).1 = false → (QLTFS.setBlockSize m size).2 = m) := by
  have hiff := isValidBlockSize_iff size
  constructor
  · rw [← hiff]
    unfold QLTFS.setBlockSize
    by_cases hv : QLTFS.isValidBlockSize size <;> simp [hv]
  · intro h
    unfold QLTFS.setBlockSize at h ⊢
    by_cases hv : QLTFS.isValidBlockSize size <;> simp [hv] at h ⊢

/-- C8 witness: block size 6 KiB (neither a power of two nor a multiple
of 4 KiB) is rejected and the stored default block size is kept. -/
theorem setBlockSize_accepts_iff_witness :
    (QLTFS.setBlockSize {} 6144).1 = false ∧ (QLTFS.setBlockSize {} 6144).2 = { blockSize := QLTFS.DEFAULT_BLOCK_SIZE } := by
  refine ⟨by decide, ?_⟩
  exact (setBlockSize_accepts_iff {} 6144).2 (by decide)

/-- C2.  `ScsiSenseData::fromRawData` decodes by response code: fixed
format (0x70/0x71) takes the sense key from the low nibble of byte 2 and
ASC/ASCQ from bytes 12 and 13 when the additional-sense length permits
(the buffer holds both bytes and the additional-sense-length byte is at
least 6), descriptor format (0x72/0x73) takes the sense key from the low
nibble of byte 1 and ASC/ASCQ from bytes 2 and 3, both marking the
result valid; in particular a fixed-format array with sense key 3,
ASC 0x11, ASCQ 0x00 yields {valid, MediumError, 0x11, 0x00}. -/
theorem fromRawData_decodes_by_response_code :
    (∀ data : List Nat, 8 ≤ data.length →
      ((QLTFS.qbaByte data 0 &&& 0x7F = 0x70 ∨ QLTFS.qbaByte data 0 &&& 0x7F = 0x71) →
        (QLTFS.ScsiSenseData.fromRawData data).valid = true ∧
        (QLTFS.ScsiSenseData.fromRawData data).senseKey = QLTFS.qbaByte data 2 &&& 0x0F ∧
        (14 ≤ data.length → 6 ≤ QLTFS.qbaByte data 7 →
          (QLTFS.ScsiSenseData.fromRawData data).additionalSenseCode = QLTFS.qbaByte data 12 ∧
          (QLTFS.ScsiSenseData.fromRawData data).additionalSenseCodeQualifier = QLTFS.qbaByte data 13)) ∧
      ((QLTFS.qbaByte data 0 &&& 0x7F = 0x72 ∨ QLTFS.qbaByte data 0 &&& 0x7F = 0x73) →
        (QLTFS.ScsiSenseData.fromRawData data).valid = true ∧
        (QLTFS.ScsiSenseData.fromRawData data).senseKey = QLTFS.qbaByte data 1 &&& 0x0F ∧
        (QLTFS.ScsiSenseData.fromRawData data).additionalSenseCode = QLTFS.qbaByte data 2 ∧
        (QLTFS.ScsiSenseData.fromRawData data).additionalSenseCodeQualifier = QLTFS.qbaByte data 3)) ∧
    ((QLTFS.ScsiSenseData.fromRawData QLTFS.fixedSenseExample).valid = true ∧
     (QLTFS.ScsiSenseData.fromRawData QLTFS.fixedSenseExample).senseKey = QLTFS.ScsiSenseKey.MediumError ∧
     (QLTFS.ScsiSenseData.fromRawData QLTFS.fixedSenseExample).additionalSenseCode = 0x11 ∧
     (QLTFS.ScsiSenseData.fromRawData QLTFS.fixedSenseExample).additionalSenseCodeQualifier = 0x00) := by
  constructor
  · intro data h8
    constructor
    · intro hrc
      simp only [QLTFS.ScsiSenseData.fromRawData]
      rw [if_neg (by omega), if_pos hrc]
      refine ⟨by split <;> simp, by split <;> simp, ?_⟩
      intro h14 h6
      rw [if_pos ⟨by omega, h6⟩]
      simp
    · intro hrc
      simp only [QLTFS.ScsiSenseData.fromRawData]
      rw [if_neg (by omega), if_neg (by omega), if_pos hrc]
      simp
  · decide

/-- C10 (code bug).  On the 13-byte fixed-format buffer whose
additional-sense-length byte is 6, `fromRawData` dereferences byte
index 13, which is not strictly less than the input's size: the guard
`data.size() >= 13` admits a buffer in which `bytes[13]` is the
`QByteArray` NUL terminator, one past the last input byte. -/
theorem fromRawData_reads_one_past_end :
    13 ∈ QLTFS.fromRawDataAccesses QLTFS.senseOobExample ∧
    QLTFS.senseOobExample.length = 13 ∧
    ¬ (13 < QLTFS.senseOobExample.length) := by decide

/-- C1.  `refreshStatus` maps every TEST UNIT READY outcome exactly as
the spec states: success to `Ready`; NotReady/ASC 0x3A to `NoMedia`;
NotReady/ASC 0x04/ASCQ 0x01 to `Loading` and any other ASCQ under
ASC 0x04 to `NotReady`; UnitAttention issues exactly one retry, whose
success maps to `Ready` with a media-changed notification and whose
failure maps to `NotReady`; DataProtect to `WriteProtected`; any other
sense key to `Error`. -/
theorem refreshStatus_spec_mapping (r1 r2 : QLTFS.ScsiCommandResult) :
    (r1.success = true →
      QLTFS.refreshStatusModel r1 r2 = ⟨.Ready, false, 1⟩) ∧
    (r1.success = false →
      r1.senseData.senseKey = QLTFS.ScsiSenseKey.NotReady →
      r1.senseData.additionalSenseCode = 0x3A →
      QLTFS.refreshStatusModel r1 r2 = ⟨.NoMedia, false, 1⟩) ∧
    (r1.success = false →
      r1.senseData.senseKey = QLTFS.ScsiSenseKey.NotReady →
      r1.senseData.additionalSenseCode = 0x04 →
      r1.senseData.additionalSenseCodeQualifier = 0x01 →
      QLTFS.refreshStatusModel r1 r2 = ⟨.Loading, false, 1⟩) ∧
    (r1.success = false →
      r1.senseData.senseKey = QLTFS.ScsiSenseKey.NotReady →
      r1.senseData.additionalSenseCode = 0x04 →
      r1.senseData.additionalSenseCodeQualifier ≠ 0x01 →
      QLTFS.refreshStatusModel r1 r2 = ⟨.NotReady, false, 1⟩) ∧
    (r1.success = false →
      r1.senseData.senseKey = QLTFS.ScsiSenseKey.UnitAttention →
      (QLTFS.refreshStatusModel r1 r2).turIssued = 2 ∧
      (r2.success = true → QLTFS.refreshStatusModel r1 r2 = ⟨.Ready, true, 2⟩) ∧
      (r2.success = false → QLTFS.refreshStatusModel r1 r2 = ⟨.NotReady, false, 2⟩)) ∧
    (r1.success = false →
      r1.senseData.senseKey = QLTFS.ScsiSenseKey.DataProtect →
      QLTFS.refreshStatusModel r1 r2 = ⟨.WriteProtected, false, 1⟩) ∧
    (r1.success = false →
      r1.senseData.senseKey ≠ QLTFS.ScsiSenseKey.NotReady →
      r1.senseData.senseKey ≠ QLTFS.ScsiSenseKey.UnitAttention →
      r1.senseData.senseKey ≠ QLTFS.ScsiSenseKey.DataProtect →
      QLTFS.refreshStatusModel r1 r2 = ⟨.Error, false, 1⟩) := by
  refine ⟨?_, ?_, ?_, ?_, ?_, ?_, ?_⟩
  · intro h; simp [QLTFS.refreshStatusModel, h]
  · intro h hk ha
    simp [QLTFS.refreshStatusModel, QLTFS.ScsiSenseKey.NotReady, h, hk, ha]
  · intro h hk ha hq
    simp [QLTFS.refreshStatusModel, QLTFS.ScsiSenseKey.NotReady, h, hk, ha, hq]
  · intro h hk ha hq
    by_cases h0 : r1.senseData.additionalSenseCodeQualifier = 0x00
    · simp [QLTFS.refreshStatusModel, QLTFS.ScsiSenseKey.NotReady, h, hk, ha, h0]
    · by_cases h2 : r1.senseData.additionalSenseCodeQualifier = 0x02 <;>
        simp [QLTFS.refreshStatusModel, QLTFS.ScsiSenseKey.NotReady, h, hk, ha, h0, hq, h2]
  · intro h hk
    refine ⟨?_, ?_, ?_⟩
    · by_cases h2 : r2.success <;>
        simp [QLTFS.refreshStatusModel, QLTFS.ScsiSenseKey.NotReady,
          QLTFS.ScsiSenseKey.UnitAttention, h, hk, h2]
    · intro h2
      simp [QLTFS.refreshStatusModel, QLTFS.ScsiSenseKey.NotReady,
        QLTFS.ScsiSenseKey.UnitAttention, h, hk, h2]
    · intro h2
      simp [QLTFS.refreshStatusModel, QLTFS.ScsiSenseKey.NotReady,
        QLTFS.ScsiSenseKey.UnitAttention, h, hk, h2]
  · intro h hk
    simp [QLTFS.refreshStatusModel, QLTFS.ScsiSenseKey.NotReady,
      QLTFS.ScsiSenseKey.UnitAttention, QLTFS.ScsiSenseKey.DataProtect, h, hk]
  · intro h hk1 hk2 hk3
    simp [QLTFS.refreshStatusModel, h, hk1, hk2, hk3]

/-- C1 witness: a successful TEST UNIT READY yields `Ready` with no
media-changed notification and a single command issued. -/
theorem refreshStatus_spec_mapping_witness :
    QLTFS.refreshStatusModel { success := true } {} = ⟨.Ready, false, 1⟩ :=
  (refreshStatus_spec_mapping { success := true } {}).1 rfl

/-- C3.  `readBlock` on an open device: a READ(6) failure with sense key
`BlankCheck` returns 0 with no error recorded; a failure with any other
sense key records an error and returns -1; success returns the byte
count read and advances the tracked block position by one. -/
theorem readBlock_end_of_data_contract (pos : Nat) (r : QLTFS.ScsiCommandResult) :
    (r.success = false →
      r.senseData.senseKey = QLTFS.ScsiSenseKey.BlankCheck →
      QLTFS.readBlockModel pos r = ⟨0, pos, false⟩) ∧
    (r.success = false →
      r.senseData.senseKey ≠ QLTFS.ScsiSenseKey.BlankCheck →
      QLTFS.readBlockModel pos r = ⟨-1, pos, true⟩) ∧
    (r.success = true →
      QLTFS.readBlockModel pos r = ⟨(r.data.length : Int), pos + 1, false⟩) := by
  refine ⟨?_, ?_, ?_⟩
  · intro h hk; simp [QLTFS.readBlockModel, h, hk]
  · intro h hk; simp [QLTFS.readBlockModel, h, hk]
  · intro h; simp [QLTFS.readBlockModel, h]

/-- C3 witness: a BlankCheck failure is a 0-length read with no error,
at block position 5. -/
theorem readBlock_end_of_data_contract_witness :
    QLTFS.readBlockModel 5
      { success := false, senseData := { senseKey := QLTFS.ScsiSenseKey.BlankCheck } } =
      ⟨0, 5, false⟩ :=
  (readBlock_end_of_data_contract 5
    { success := false, senseData := { senseKey := QLTFS.ScsiSenseKey.BlankCheck } }).1
    rfl rfl

/-- C4 counterexample: on a `TapeDevice` whose `ScsiCommand` carries the
default timeout, `locate` issues LOCATE(16) with a 60-second timeout,
not the 600 seconds the claim states (the 600-second locate timeout
exists only in the unused `LinuxScsi`/`WinScsi` enumeration backends). -/
theorem locate_timeout_is_60_not_600 :
    (QLTFS.locateModel QLTFS.SCSI_DEFAULT_TIMEOUT {} 0 0 true
        ⟨.Ready, false, 1⟩).request.timeoutSeconds = 60 ∧
    ¬ ((QLTFS.locateModel QLTFS.SCSI_DEFAULT_TIMEOUT {} 0 0 true
        ⟨.Ready, false, 1⟩).request.timeoutSeconds = 600) := by
  decide

/-- C4 (amended).  `locate(partition, block)` issues LOCATE(16) with the
`ScsiCommand` instance's configured timeout (default 60 seconds, not
overridden by the locate path), sets status `Locating` during the call,
and on success updates the tracked position's partition and block number
to the requested values and returns to `Ready`; on failure it records an
error, re-runs `refreshStatus` and reports failure. -/
theorem locate_state_machine (t : Nat) (pos : QLTFS.TapePosition)
    (p b : Nat) (ok : Bool) (ro : QLTFS.RefreshOutcome) :
    (QLTFS.locateModel t pos p b ok ro).statusDuring = .Locating ∧
    (QLTFS.locateModel t pos p b ok ro).request = QLTFS.locate16Request t p b ∧
    (QLTFS.locateModel t pos p b ok ro).request.timeoutSeconds = t ∧
    (QLTFS.locateModel t pos p b ok ro).request.cdb.length = 16 ∧
    (ok = true →
      (QLTFS.locateModel t pos p b ok ro).statusAfter = .Ready ∧
      (QLTFS.locateModel t pos p b ok ro).position.partition = p ∧
      (QLTFS.locateModel t pos p b ok ro).position.blockNumber = b ∧
      (QLTFS.locateModel t pos p b ok ro).returnValue = true ∧
      (QLTFS.locateModel t pos p b ok ro).refreshRan = false) ∧
    (ok = false →
      (QLTFS.locateModel t pos p b ok ro).refreshRan = true ∧
      (QLTFS.locateModel t pos p b ok ro).errorRecorded = true ∧
      (QLTFS.locateModel t pos p b ok ro).statusAfter = ro.status ∧
      (QLTFS.locateModel t pos p b ok ro).returnValue = false ∧
      (QLTFS.locateModel t pos p b ok ro).position = pos) := by
  refine ⟨?_, ?_, ?_, ?_, ?_, ?_⟩
  · cases ok <;> simp [QLTFS.locateModel]
  · cases ok <;> simp [QLTFS.locateModel]
  · cases ok <;> simp [QLTFS.locateModel, QLTFS.locate16Request]
  · cases ok <;> simp [QLTFS.locateModel, QLTFS.locate16Request]
  · intro h; subst h; simp [QLTFS.locateModel]
  · intro h; subst h; simp [QLTFS.locateModel]

/-- C4 witness: a successful locate to partition 1, block 7 with the
default timeout lands in `Ready` at the requested position. -/
theorem locate_state_machine_witness :
    (QLTFS.locateModel QLTFS.SCSI_DEFAULT_TIMEOUT {} 1 7 true
        ⟨.Ready, false, 1⟩).statusAfter = .Ready ∧
    (QLTFS.locateModel QLTFS.SCSI_DEFAULT_TIMEOUT {} 1 7 true
        ⟨.Ready, false, 1⟩).position.blockNumber = 7 :=
  ⟨((locate_state_machine QLTFS.SCSI_DEFAULT_TIMEOUT {} 1 7 true
      ⟨.Ready, false, 1⟩).2.2.2.2.1 rfl).1,
   ((locate_state_machine QLTFS.SCSI_DEFAULT_TIMEOUT {} 1 7 true
      ⟨.Ready, false, 1⟩).2.2.2.2.1 rfl).2.2.1⟩

/-- C2 witness: the 18-byte fixed-format example decodes to a valid
MediumError sense with ASC 0x11, ASCQ 0x00. -/
theorem fromRawData_decodes_witness :
    8 ≤ QLTFS.fixedSenseExample.length ∧
    (QLTFS.ScsiSenseData.fromRawData QLTFS.fixedSenseExample).senseKey =
      QLTFS.ScsiSenseKey.MediumError :=
  ⟨by decide, (fromRawData_decodes_by_response_code.2).2.1⟩

/-- The write loop after `j` successfully written full chunks, when the
cancel flag rises at chunk count `k` and the file still has data beyond
chunk `k`: it writes the remaining `k - j` chunks and exits `Cancelled`
with exactly `k` whole chunks counted. -/
theorem writeFileLoop_cancel_aux (blockSize fileSize k : Nat)
    (cancelled readOk writeOk : Nat → Bool)
    (hbs : 0 < blockSize)
    (hcancel : ∀ n, cancelled n = decide (k ≤ n))
    (hread : ∀ n, n < k → readOk n = true)
    (hwrite : ∀ n, n < k → writeOk n = true)
    (hk : k * blockSize < fileSize) :
    ∀ m j, k - j = m → j ≤ k →
      QLTFS.writeFileLoop blockSize fileSize cancelled readOk writeOk
        (j * blockSize) (j * blockSize) j =
        .cancelledExit (k * blockSize) := by
  intro m
  induction m with
  | zero =>
    intro j hm hj
    have hjk : j = k := by omega
    subst hjk
    rw [QLTFS.writeFileLoop]
    rw [dif_pos hk]
    have hc : cancelled j = true := by rw [hcancel]; simp
    rw [hc]
    simp
  | succ m' ih =>
    intro j hm hj
    have hjk : j < k := by omega
    have hmono : (j + 1) * blockSize ≤ k * blockSize :=
      Nat.mul_le_mul_right blockSize (by omega)
    have hoff : j * blockSize < fileSize := by
      have : j * blockSize ≤ k * blockSize :=
        Nat.mul_le_mul_right blockSize (by omega)
      omega
    rw [QLTFS.writeFileLoop]
    rw [dif_pos hoff]
    have hc : cancelled j = false := by
      rw [hcancel]; simp; omega
    rw [hc]
    have hro : readOk j = true := hread j hjk
    have hwo : writeOk j = true := hwrite j hjk
    have hchunk : min blockSize (fileSize - j * blockSize) = blockSize := by
      have : (j + 1) * blockSize ≤ fileSize := by omega
      have : blockSize ≤ fileSize - j * blockSize := by
        rw [Nat.succ_mul] at this
        omega
      omega
    simp only [hro, hc, hwo, Bool.not_true, if_false, ite_false, ite_true, hchunk]
    rw [dif_neg (by omega)]
    simp only [Bool.false_eq_true, if_false]
    have := ih (j + 1) (by omega) (by omega)
    rw [Nat.succ_mul] at this
    simpa using this

/-- C6.  Writing a 10 MiB file in 512 KiB chunks with the cancel flag
asserted after exactly 3 chunks: the loop observes the flag before the
fourth chunk, the item ends `Cancelled`, `bytesTransferred` is exactly
3 × 512 KiB (whole chunks only), and no filemark is written. -/
theorem writeFile_cancel_after_3_chunks (readOk writeOk : Nat → Bool)
    (filemarkOk : Bool)
    (hread : ∀ n, n < 3 → readOk n = true)
    (hwrite : ∀ n, n < 3 → writeOk n = true) :
    QLTFS.writeFileToTapeModel (512 * 1024) (10 * 1024 * 1024)
      (fun n => decide (3 ≤ n)) readOk writeOk filemarkOk =
      ⟨.Cancelled, 3 * (512 * 1024), false⟩ := by
  unfold QLTFS.writeFileToTapeModel
  have h := writeFileLoop_cancel_aux (512 * 1024) (10 * 1024 * 1024) 3
    (fun n => decide (3 ≤ n)) readOk writeOk (by norm_num)
    (fun n => rfl) hread hwrite (by norm_num) 3 0 rfl (by omega)
  norm_num at h
  rw [h]

/-- C6 witness: with every chunk read and block write succeeding, the
concrete 10 MiB / 512 KiB / cancel-at-3 scenario ends
`(Cancelled, 3 × 512 KiB, no filemark)`. -/
theorem writeFile_cancel_after_3_chunks_witness :
    QLTFS.writeFileToTapeModel (512 * 1024) (10 * 1024 * 1024)
      (fun n => decide (3 ≤ n)) (fun _ => true) (fun _ => true) true =
      ⟨.Cancelled, 3 * (512 * 1024), false⟩ :=
  writeFile_cancel_after_3_chunks (fun _ => true) (fun _ => true) true
    (fun _ _ => rfl) (fun _ _ => rfl)

/-- C7.  When the read loop completes and the supplied source hash does
not match the freshly computed destination hash, the item fails with the
integrity-specific error — distinct from the tape-read and local-write
I/O errors — and the destination file is not deleted; and across all
outcomes the destination is deleted only on cancellation, tape-read
failure or local-write failure. -/
theorem readFile_hash_integrity (createDirs : Bool) (expectedSize : Nat)
    (cancelled : Nat → Bool) (step : Nat → QLTFS.TapeReadStep)
    (writeOk : Nat → Bool) (t : Nat)
    (hdone : QLTFS.readFileLoop expectedSize cancelled step writeOk 0 0 =
      .done t) :
    (QLTFS.readFileFromTapeModel createDirs true true expectedSize cancelled
        step writeOk true false true false =
      ⟨.Failed, .hashVerificationFailed, false, false⟩) ∧
    QLTFS.TapeIOError.hashVerificationFailed ≠ QLTFS.TapeIOError.readError ∧
    QLTFS.TapeIOError.hashVerificationFailed ≠ QLTFS.TapeIOError.writeError ∧
    (∀ mkpathOk openOk verify srcEmpty calcOk hmatch : Bool,
      (QLTFS.readFileFromTapeModel createDirs mkpathOk openOk expectedSize
          cancelled step writeOk verify srcEmpty calcOk hmatch).destDeleted = true →
        (QLTFS.readFileFromTapeModel createDirs mkpathOk openOk expectedSize
          cancelled step writeOk verify srcEmpty calcOk hmatch).status = .Cancelled ∨
        (QLTFS.readFileFromTapeModel createDirs mkpathOk openOk expectedSize
          cancelled step writeOk verify srcEmpty calcOk hmatch).errorMessage = .readError ∨
        (QLTFS.readFileFromTapeModel createDirs mkpathOk openOk expectedSize
          cancelled step writeOk verify srcEmpty calcOk hmatch).errorMessage = .writeError) := by
  refine ⟨?_, by simp, by simp, ?_⟩
  · simp [QLTFS.readFileFromTapeModel, hdone]
  · intro mkpathOk openOk verify srcEmpty calcOk hmatch
    rcases hl : QLTFS.readFileLoop expectedSize cancelled step writeOk 0 0 with
      t' | t' | t' | t' <;>
      cases createDirs <;> cases mkpathOk <;> cases openOk <;> cases verify <;>
      cases srcEmpty <;> cases calcOk <;> cases hmatch <;>
      simp [QLTFS.readFileFromTapeModel, hl]

/-- C7 witness: an immediately-ending read (expected size 0) with a
mismatching source hash fails with the integrity error and keeps the
destination file. -/
theorem readFile_hash_integrity_witness :
    QLTFS.readFileFromTapeModel false true true 0 (fun _ => false)
      (fun _ => .fail) (fun _ => true) true false true false =
      ⟨.Failed, .hashVerificationFailed, false, false⟩ :=
  (readFile_hash_integrity false 0 (fun _ => false) (fun _ => .fail)
    (fun _ => true) 0 (by rw [QLTFS.readFileLoop]; simp)).1

/-- C9 counterexample: a 17-byte CDB handed to `executeRaw` on an open
device is not rejected — `Private::execute` submits it to the transport
unchanged (no length validation exists on this path). -/
theorem executeRaw_issues_oversized_cdb :
    QLTFS.oversizedCdbExample.length = 17 ∧
    (QLTFS.executeRawModel true QLTFS.SCSI_DEFAULT_TIMEOUT
        QLTFS.oversizedCdbExample).issued = true ∧
    (QLTFS.executeRawModel true QLTFS.SCSI_DEFAULT_TIMEOUT
        QLTFS.oversizedCdbExample).request =
      some { cdb := QLTFS.oversizedCdbExample
             timeoutSeconds := QLTFS.SCSI_DEFAULT_TIMEOUT } := by
  refine ⟨by decide, ?_, ?_⟩ <;> rfl

/-- C9 (amended).  `ScsiCommand::executeRaw` performs no CDB length
validation: whenever the device is open it issues the CDB as given.
The >16-byte rejection ("CDB too long (max 16 bytes)") lives in the
platform backends `LinuxScsi::executeCommand`/`WinScsi::executeCommand`,
which reject exactly the CDBs longer than 16 bytes before building the
transport request. -/
theorem cdb_length_validation_location (isOpen : Bool) (t : Nat)
    (cdb : List Nat) (len : Nat) :
    (QLTFS.executeRawModel isOpen t cdb).issued = isOpen ∧
    ((QLTFS.executeRawModel isOpen t cdb).request =
      if isOpen then some ⟨cdb, t⟩ else none) ∧
    (QLTFS.platformExecuteCommandModel len = .rejectedTooLong ↔ 16 < len) := by
  refine ⟨?_, ?_, ?_⟩
  · cases isOpen <;> simp [QLTFS.executeRawModel]
  · cases isOpen <;> simp [QLTFS.executeRawModel]
  · by_cases h : len > 16 <;> simp [QLTFS.platformExecuteCommandModel, h]

/-! ### Numeric codec round-trips -/

/-- Decimal digit characters decode to the digit they encode. -/
theorem decDigit_inverse : ∀ d < 10,
    QLTFS.isDigitChar (QLTFS.digitChar d) = true ∧
    QLTFS.charDigit (QLTFS.digitChar d) = d := by decide

/-- Hex digit characters decode to the digit they encode. -/
theorem hexDigit_inverse : ∀ d < 16,
    QLTFS.isHexDigitChar (QLTFS.hexChar d) = true ∧
    QLTFS.charHexVal (QLTFS.hexChar d) = d := by decide

/-- Folding `acc * 10 + digit` over a most-significant-first digit list
computes the value `Nat.ofDigits` assigns to its reversal. -/
theorem foldl_digits_eq_ofDigits (L : List Nat) :
    ∀ acc : Nat, L.foldl (fun a d => a * 10 + d) acc =
      acc * 10 ^ L.length + Nat.ofDigits 10 L.reverse := by
  induction L with
  | nil => intro acc; simp [Nat.ofDigits_nil]
  | cons d L ih =>
    intro acc
    rw [List.foldl_cons, ih, List.reverse_cons, Nat.ofDigits_append,
      Nat.ofDigits_singleton, List.length_reverse, List.length_cons]
    ring_nf

/-- Decimal parsing of mapped digit characters is decimal folding. -/
theorem parseDec_foldl_map (L : List Nat) (hL : ∀ d ∈ L, d < 10) :
    ∀ acc : Nat, (L.map QLTFS.digitChar).foldl
        (fun a c => a * 10 + QLTFS.charDigit c) acc =
      L.foldl (fun a d => a * 10 + d) acc := by
  induction L with
  | nil => intro acc; rfl
  | cons d L ih =>
    intro acc
    have hd := (decDigit_inverse d (hL d (by simp))).2
    rw [List.map_cons, List.foldl_cons, List.foldl_cons, hd]
    exact ih (fun x hx => hL x (by simp [hx])) _

/-- `QString::number` / `toULongLong` round-trip. -/
theorem toULongLong_natToString (n : Nat) :
    QLTFS.toULongLongModel (QLTFS.natToString n) = n := by
  by_cases h0 : n = 0
  · subst h0; rfl
  · unfold QLTFS.natToString
    rw [if_neg h0]
    unfold QLTFS.toULongLongModel
    have hne : Nat.digits 10 n ≠ [] := Nat.digits_ne_nil_iff_ne_zero.mpr h0
    have hdata : (String.mk ((Nat.digits 10 n).reverse.map QLTFS.digitChar)).data =
      (Nat.digits 10 n).reverse.map QLTFS.digitChar := rfl
    rw [hdata, if_pos ?valid]
    case valid =>
      constructor
      · simp [hne]
      · rw [List.all_eq_true]
        intro c hc
        rw [List.mem_map] at hc
        obtain ⟨d, hd, rfl⟩ := hc
        rw [List.mem_reverse] at hd
        exact (decDigit_inverse d (Nat.digits_lt_base (by norm_num) hd)).1
    · unfold QLTFS.parseDecDigits
      rw [parseDec_foldl_map _ (fun d hd =>
          Nat.digits_lt_base (by norm_num) (List.mem_reverse.mp hd)),
        foldl_digits_eq_ofDigits, List.reverse_reverse, Nat.ofDigits_digits]
      simp

/-- Fixed-width render/parse round-trip, generic in the base and the
digit-character maps. -/
theorem takeNumAux_padNumBase (base : Nat) (toChar : Nat → Char)
    (isD : Char → Bool) (val : Char → Nat) (hbase : 1 < base)
    (hinv : ∀ d, d < base → isD (toChar d) = true ∧ val (toChar d) = d) :
    ∀ w n rest acc,
      QLTFS.takeNumAux base isD val w acc
          (QLTFS.padNumBase base toChar w n ++ rest) =
        some (acc * base ^ w + n % base ^ w, rest) := by
  intro w
  induction w with
  | zero =>
    intro n rest acc
    simp [QLTFS.takeNumAux, QLTFS.padNumBase, Nat.mod_one]
  | succ w ih =>
    intro n rest acc
    have hd : n / base ^ w % base < base := Nat.mod_lt _ (by omega)
    obtain ⟨hisD, hval⟩ := hinv _ hd
    simp only [QLTFS.padNumBase, List.cons_append, QLTFS.takeNumAux, hisD,
      if_true, hval, ih]
    have hm : n % base ^ (w + 1) = n % base ^ w + base ^ w * (n / base ^ w % base) := by
      rw [pow_succ]
      exact Nat.mod_mul
    rw [hm]
    congr 1
    ring_nf

/-- Fixed-width decimal round-trip for values that fit the width. -/
theorem takeDec_padDec (w n : Nat) (hn : n < 10 ^ w) (rest : List Char) :
    QLTFS.takeDec w (QLTFS.padDec w n ++ rest) = some (n, rest) := by
  unfold QLTFS.takeDec QLTFS.padDec
  rw [takeNumAux_padNumBase 10 QLTFS.digitChar QLTFS.isDigitChar QLTFS.charDigit
    (by norm_num) (fun d hd => decDigit_inverse d hd) w n rest 0]
  rw [Nat.mod_eq_of_lt hn]
  simp

/-- Fixed-width hex round-trip for values that fit the width. -/
theorem takeHex_padHex (w n : Nat) (hn : n < 16 ^ w) (rest : List Char) :
    QLTFS.takeHex w (QLTFS.padHex w n ++ rest) = some (n, rest) := by
  unfold QLTFS.takeHex QLTFS.padHex
  rw [takeNumAux_padNumBase 16 QLTFS.hexChar QLTFS.isHexDigitChar QLTFS.charHexVal
    (by norm_num) (fun d hd => hexDigit_inverse d hd) w n rest 0]
  rw [Nat.mod_eq_of_lt hn]
  simp

/-- `expectChar` succeeds on the character it expects. -/
theorem expectChar_cons_self (c : Char) (rest : List Char) :
    QLTFS.expectChar c (c :: rest) = some rest := by
  simp [QLTFS.expectChar]

/-- Every month length is at most 31. -/
theorem daysInMonth_le_31 (y m : Nat) : QLTFS.daysInMonth y m ≤ 31 := by
  unfold QLTFS.daysInMonth
  split_ifs <;> norm_num

/-- The writer's timestamp rendering parses back to the same valid
timestamp. -/
theorem parseIso_formatTimestamp (t : QLTFS.Timestamp)
    (h : t.isValid = true) :
    QLTFS.parseIsoTimestamp (QLTFS.formatTimestamp t).data = some t := by
  obtain ⟨y, mo, d, hh, mi, s, ms⟩ := t
  have hp : 1 ≤ y ∧ y ≤ 9999 ∧ 1 ≤ mo ∧ mo ≤ 12 ∧ 1 ≤ d ∧
      d ≤ QLTFS.daysInMonth y mo ∧ hh ≤ 23 ∧ mi ≤ 59 ∧ s ≤ 59 ∧ ms ≤ 999 := by
    simpa [QLTFS.Timestamp.isValid] using h
  have hd31 := daysInMonth_le_31 y mo
  have hdata : (QLTFS.formatTimestamp ⟨y, mo, d, hh, mi, s, ms⟩).data =
      QLTFS.padDec 4 y ++ ('-' :: (QLTFS.padDec 2 mo ++ ('-' :: (QLTFS.padDec 2 d ++
      ('T' :: (QLTFS.padDec 2 hh ++ (':' :: (QLTFS.padDec 2 mi ++ (':' :: (QLTFS.padDec 2 s ++
      ((if 0 < ms then '.' :: QLTFS.padDec 3 ms else []) ++ ['Z']))))))))))) := rfl
  by_cases hms : 0 < ms
  · rw [hdata, if_pos hms]
    simp only [List.cons_append]
    simp only [QLTFS.parseIsoTimestamp,
      takeDec_padDec 4 y (by omega), takeDec_padDec 2 mo (by omega),
      takeDec_padDec 2 d (by omega), takeDec_padDec 2 hh (by omega),
      takeDec_padDec 2 mi (by omega), takeDec_padDec 2 s (by omega),
      takeDec_padDec 3 ms (by omega), expectChar_cons_self]
    simp [h]
  · have hms0 : ms = 0 := by omega
    subst hms0
    rw [hdata, if_neg hms]
    simp only [List.nil_append]
    simp only [QLTFS.parseIsoTimestamp,
      takeDec_padDec 4 y (by omega), takeDec_padDec 2 mo (by omega),
      takeDec_padDec 2 d (by omega), takeDec_padDec 2 hh (by omega),
      takeDec_padDec 2 mi (by omega), takeDec_padDec 2 s (by omega),
      expectChar_cons_self]
    simp [h]

/-- The writer's UUID rendering parses back to the same bounded UUID. -/
theorem uuidFromString_uuidToString (u : QLTFS.QUuidModel)
    (h : u.bounded) :
    QLTFS.uuidFromString (QLTFS.uuidToString u) = u := by
  obtain ⟨a, b, c, d, e⟩ := u
  obtain ⟨h1, h2, h3, h4, h5⟩ := h
  have hdata : (QLTFS.uuidToString ⟨a, b, c, d, e⟩).data =
      QLTFS.padHex 8 a ++ ('-' :: (QLTFS.padHex 4 b ++ ('-' :: (QLTFS.padHex 4 c ++
      ('-' :: (QLTFS.padHex 4 d ++ ('-' :: QLTFS.padHex 12 e))))))) := rfl
  have he : QLTFS.padHex 12 e = QLTFS.padHex 12 e ++ [] := by simp
  unfold QLTFS.uuidFromString
  rw [hdata, he]
  simp only [takeHex_padHex 8 a h1, takeHex_padHex 4 b h2, takeHex_padHex 4 c h3,
    takeHex_padHex 4 d h4, takeHex_padHex 12 e h5, expectChar_cons_self]
  simp

/-- Partition encode/decode: `a`/`b` round-trip and the legacy numeric
forms decode to the matching partitions. -/
theorem parsePartition_cases :
    QLTFS.parsePartition (QLTFS.formatPartition .IndexPartition) = .IndexPartition ∧
    QLTFS.parsePartition (QLTFS.formatPartition .DataPartition) = .DataPartition ∧
    QLTFS.parsePartition "0" = .IndexPartition ∧
    QLTFS.parsePartition "1" = .DataPartition := by
  refine ⟨?_, ?_, ?_, ?_⟩ <;> rfl

/-- Boolean encode/decode round-trip. -/
theorem parseBoolean_formatBoolean (b : Bool) :
    QLTFS.parseBooleanText (QLTFS.formatBoolean b) = b := by
  cases b <;> rfl

/-- `readElementText` of a written text element returns the written
string. -/
theorem elemText_single (s : String) : QLTFS.elemText [.text s] = s := by
  show "" ++ s = s
  cases s
  rfl

/-- Partition rendering decodes to the same partition. -/
theorem parsePartition_format (p : QLTFS.PartitionLabel) :
    QLTFS.parsePartition (QLTFS.formatPartition p) = p := by
  cases p <;> rfl

/-- A written `extent` element parses back to the same extent. -/
theorem parseExtent_writeExtent (e : QLTFS.LtfsExtent) :
    QLTFS.parseExtentChildren
      [QLTFS.textElem "partition" (QLTFS.formatPartition e.partition),
       QLTFS.textElem "startblock" (QLTFS.natToString e.startBlock),
       QLTFS.textElem "fileoffset" (QLTFS.natToString e.fileOffset),
       QLTFS.textElem "byteoffset" (QLTFS.natToString e.byteOffset),
       QLTFS.textElem "bytecount" (QLTFS.natToString e.byteCount)] {} = e := by
  simp [QLTFS.parseExtentChildren, QLTFS.textElem, elemText_single,
    parsePartition_format, toULongLong_natToString]

/-- A written `extendedattribute` element parses back to the same
attribute. -/
theorem parseEA_writeEA (a : QLTFS.ExtendedAttribute) :
    QLTFS.parseExtendedAttributeChildren
      [QLTFS.textElem "key" a.key, QLTFS.textElem "value" a.value] {} = a := by
  simp [QLTFS.parseExtendedAttributeChildren, QLTFS.textElem, elemText_single]

/-- A written location element parses back to the same location. -/
theorem parseLocation_writeLocation (l : QLTFS.LocationData) :
    QLTFS.parseLocationChildren
      [QLTFS.textElem "partition" (QLTFS.formatPartition l.partition),
       QLTFS.textElem "startblock" (QLTFS.natToString l.startBlock)] {} = l := by
  simp [QLTFS.parseLocationChildren, QLTFS.textElem, elemText_single,
    parsePartition_format, toULongLong_natToString]

/-- A parsed timestamp string produced by the writer never falls back
to the current time. -/
theorem parseChain_format (now t : QLTFS.Timestamp) (h : t.isValid = true) :
    QLTFS.parseTimestampChain now (QLTFS.formatTimestamp t) = t := by
  unfold QLTFS.parseTimestampChain
  rw [parseIso_formatTimestamp t h]

/-- The file-children loop processes concatenated child lists in
sequence. -/
theorem parseFileChildren_append (now : QLTFS.Timestamp) (l1 l2 : List QLTFS.Xml)
    (st : QLTFS.LtfsFile × List QLTFS.LtfsExtent) :
    QLTFS.parseFileChildren now (l1 ++ l2) st =
      QLTFS.parseFileChildren now l2 (QLTFS.parseFileChildren now l1 st) := by
  simp [QLTFS.parseFileChildren, List.foldl_append]

/-- The index-children loop processes concatenated child lists in
sequence. -/
theorem parseIndexChildren_append (now : QLTFS.Timestamp) (l1 l2 : List QLTFS.Xml)
    (idx : QLTFS.LtfsIndex) :
    QLTFS.parseIndexChildren now (l1 ++ l2) idx =
      QLTFS.parseIndexChildren now l2 (QLTFS.parseIndexChildren now l1 idx) := by
  simp [QLTFS.parseIndexChildren, List.foldl_append]

/-- The directory-children loop processes concatenated child lists in
sequence. -/
theorem parseDirectoryChildren_append (now : QLTFS.Timestamp) (l1 l2 : List QLTFS.Xml) :
    ∀ d, QLTFS.parseDirectoryChildren now (l1 ++ l2) d =
      QLTFS.parseDirectoryChildren now l2 (QLTFS.parseDirectoryChildren now l1 d) := by
  induction l1 with
  | nil => intro d; rfl
  | cons x rest ih =>
    intro d
    simp only [List.cons_append, QLTFS.parseDirectoryChildren]
    exact ih _

/-- Written extents inside `extentinfo` parse back appended in order. -/
theorem parseExtentInfo_map (exts : List QLTFS.LtfsExtent) :
    ∀ acc, QLTFS.parseExtentInfoChildren (exts.map QLTFS.writeExtentX) acc =
      acc ++ exts := by
  induction exts with
  | nil => intro acc; simp [QLTFS.parseExtentInfoChildren]
  | cons e rest ih =>
    intro acc
    simp only [List.map_cons, QLTFS.writeExtentX, QLTFS.parseExtentInfoChildren,
      if_pos rfl, parseExtent_writeExtent, ih]
    simp

/-- Cons form of `parseExtentInfo_map`, stable under `List.map_cons`. -/
theorem parseExtentInfo_map_cons (e0 : QLTFS.LtfsExtent) (es : List QLTFS.LtfsExtent)
    (acc : List QLTFS.LtfsExtent) :
    QLTFS.parseExtentInfoChildren
      (QLTFS.writeExtentX e0 :: es.map QLTFS.writeExtentX) acc = acc ++ e0 :: es := by
  have h := parseExtentInfo_map (e0 :: es) acc
  simpa using h

/-- Written extended attributes parse back appended in order through
the file loop. -/
theorem parseFileChildren_xattrs (now : QLTFS.Timestamp)
    (l : List QLTFS.ExtendedAttribute) :
    ∀ f acc, QLTFS.parseFileChildren now (l.map QLTFS.writeExtendedAttributeX) (f, acc) =
      ({ f with extendedAttributes := f.extendedAttributes ++ l }, acc) := by
  induction l with
  | nil => intro f acc; simp [QLTFS.parseFileChildren]
  | cons a rest ih =>
    intro f acc
    have hstep : QLTFS.parseFileStep now (f, acc) (QLTFS.writeExtendedAttributeX a) =
        ({ f with extendedAttributes := f.extendedAttributes ++ [a] }, acc) := by
      simp [QLTFS.parseFileStep, QLTFS.writeExtendedAttributeX, parseEA_writeEA]
    simp only [QLTFS.parseFileChildren, List.map_cons, List.foldl_cons] at ih ⊢
    rw [hstep, ih]
    simp

/-- Written extended attributes parse back appended in order through
the directory loop. -/
theorem parseDirectoryChildren_xattrs (now : QLTFS.Timestamp)
    (l : List QLTFS.ExtendedAttribute) :
    ∀ d, QLTFS.parseDirectoryChildren now (l.map QLTFS.writeExtendedAttributeX) d =
      d.setExtendedAttributes (d.extendedAttributes ++ l) := by
  induction l with
  | nil =>
    intro d
    obtain ⟨n, u, r, c, ch, m, a, b, x, fl, sd⟩ := d
    simp [QLTFS.parseDirectoryChildren, QLTFS.LtfsDirectory.setExtendedAttributes,
      QLTFS.LtfsDirectory.extendedAttributes]
  | cons a rest ih =>
    intro d
    have hstep : QLTFS.parseDirectoryStep now d (QLTFS.writeExtendedAttributeX a) =
        d.setExtendedAttributes (d.extendedAttributes ++ [a]) := by
      simp [QLTFS.parseDirectoryStep, QLTFS.writeExtendedAttributeX, parseEA_writeEA]
    simp only [List.map_cons, QLTFS.parseDirectoryChildren]
    rw [hstep, ih]
    obtain ⟨n, u, r, c, ch, m, a2, b, x, fl, sd⟩ := d
    simp [QLTFS.LtfsDirectory.setExtendedAttributes, QLTFS.LtfsDirectory.extendedAttributes]

/-- One step of the file-children loop. -/
theorem parseFileChildren_cons (now : QLTFS.Timestamp) (x : QLTFS.Xml)
    (rest : List QLTFS.Xml) (st : QLTFS.LtfsFile × List QLTFS.LtfsExtent) :
    QLTFS.parseFileChildren now (x :: rest) st =
      QLTFS.parseFileChildren now rest (QLTFS.parseFileStep now st x) := rfl

theorem parseFileChildren_nil (now : QLTFS.Timestamp)
    (st : QLTFS.LtfsFile × List QLTFS.LtfsExtent) :
    QLTFS.parseFileChildren now [] st = st := rfl

/-- A written `file` element parses back to the same file when its
timestamps are valid. -/
theorem parseFile_writeFile (now : QLTFS.Timestamp) (f : QLTFS.LtfsFile)
    (h1 : f.creationTime.isValid = true) (h2 : f.changeTime.isValid = true)
    (h3 : f.modifyTime.isValid = true) (h4 : f.accessTime.isValid = true)
    (h5 : ∀ t, f.backupTime = some t → t.isValid = true) :
    QLTFS.parseFileFromChildren now (QLTFS.writeFileChildren f) = f := by
  obtain ⟨nm, uid, len, ro, ct, cht, mt, at2, bt, xs, ei⟩ := f
  simp only at h1 h2 h3 h4
  cases bt with
  | none =>
    rcases Nat.eq_zero_or_pos uid with huid | huid <;>
      rcases ei with _ | ⟨e0, es⟩ <;>
      simp [QLTFS.parseFileFromChildren, QLTFS.writeFileChildren,
        parseFileChildren_cons, parseFileChildren_nil, parseFileChildren_append,
        parseFileChildren_xattrs, parseExtentInfo_map_cons, QLTFS.parseFileStep,
        QLTFS.textElem, elemText_single, toULongLong_natToString,
        parseBoolean_formatBoolean, parseChain_format, h1, h2, h3, h4, huid]
  | some t =>
    have ht : t.isValid = true := h5 t rfl
    rcases Nat.eq_zero_or_pos uid with huid | huid <;>
      rcases ei with _ | ⟨e0, es⟩ <;>
      simp [QLTFS.parseFileFromChildren, QLTFS.writeFileChildren,
        parseFileChildren_cons, parseFileChildren_nil, parseFileChildren_append,
        parseFileChildren_xattrs, parseExtentInfo_map_cons, QLTFS.parseFileStep,
        QLTFS.textElem, elemText_single, toULongLong_natToString,
        parseBoolean_formatBoolean, parseChain_format, h1, h2, h3, h4, ht, huid]

/-- `writeDirectory` unfolded: the `directory` element and its children
in writer order, with the subdirectory recursion as a plain map. -/
theorem writeDirectoryX_eq (n : String) (u : Nat) (r : Bool)
    (c ch m a : QLTFS.Timestamp) (b : Option QLTFS.Timestamp)
    (xs : List QLTFS.ExtendedAttribute) (fs : List QLTFS.LtfsFile)
    (ss : List QLTFS.LtfsDirectory) :
    QLTFS.writeDirectoryX (.mk n u r c ch m a b xs fs ss) =
      .elem "directory"
        ([QLTFS.textElem "name" n] ++
         (if 0 < u then [QLTFS.textElem "uid" (QLTFS.natToString u)] else []) ++
         [QLTFS.textElem "readonly" (QLTFS.formatBoolean r),
          QLTFS.textElem "creationtime" (QLTFS.formatTimestamp c),
          QLTFS.textElem "changetime" (QLTFS.formatTimestamp ch),
          QLTFS.textElem "modifytime" (QLTFS.formatTimestamp m),
          QLTFS.textElem "accesstime" (QLTFS.formatTimestamp a)] ++
         (match b with
          | some t => [QLTFS.textElem "backuptime" (QLTFS.formatTimestamp t)]
          | none => []) ++
         xs.map QLTFS.writeExtendedAttributeX ++
         fs.map QLTFS.writeFileX ++
         ss.map QLTFS.writeDirectoryX) := by
  rw [QLTFS.writeDirectoryX.eq_def]
  simp only [List.attach_map_coe, List.append_assoc]

/-- One step of the index-children loop. -/
theorem parseIndexChildren_cons (now : QLTFS.Timestamp) (x : QLTFS.Xml)
    (rest : List QLTFS.Xml) (idx : QLTFS.LtfsIndex) :
    QLTFS.parseIndexChildren now (x :: rest) idx =
      QLTFS.parseIndexChildren now rest (QLTFS.parseIndexStep now idx x) := rfl

theorem parseIndexChildren_nil (now : QLTFS.Timestamp) (idx : QLTFS.LtfsIndex) :
    QLTFS.parseIndexChildren now [] idx = idx := rfl

/-- A written location element parses back to the same location
(children in element form). -/
theorem parseLocation_writeLocation_elems (l : QLTFS.LocationData) :
    QLTFS.parseLocationChildren
      [.elem "partition" [.text (QLTFS.formatPartition l.partition)],
       .elem "startblock" [.text (QLTFS.natToString l.startBlock)]] {} = l := by
  simp [QLTFS.parseLocationChildren, elemText_single,
    parsePartition_format, toULongLong_natToString]

/-- C5.  Round-trip of the index codec on the spec's shape — a root
directory holding one directory that holds two files, one of which has
two extents: parsing the XML the index writer produces yields an index
equal field for field to the original, including extent order,
timestamps to millisecond precision and partition values, for every
well-formed field assignment (nonempty version string, valid UTC
timestamps, canonical UUID groups, a recorded previous-generation
location); the writer serialises partitions as `a`/`b` and the reader
also accepts the legacy numeric forms `0`/`1`. -/
theorem index_roundtrip_one_dir_two_files
    (now : QLTFS.Timestamp)
    (v cr : String) (uu : QLTFS.QUuidModel) (gen huidN : Nat)
    (ut : QLTFS.Timestamp) (selfLoc prevLoc : QLTFS.LocationData) (apu : Bool)
    (rn dn : String) (ru du : Nat) (rr dr : Bool)
    (rc rch rm ra dc dch dm da : QLTFS.Timestamp)
    (rb db : Option QLTFS.Timestamp)
    (rx dx : List QLTFS.ExtendedAttribute)
    (f1 f2 : QLTFS.LtfsFile) (e1 e2 : QLTFS.LtfsExtent)
    (hv : v ≠ "")
    (hut : ut.isValid = true)
    (huu : uu.bounded)
    (hprev : 0 < prevLoc.startBlock)
    (hrc : rc.isValid = true) (hrch : rch.isValid = true)
    (hrm : rm.isValid = true) (hra : ra.isValid = true)
    (hrb : ∀ t, rb = some t → t.isValid = true)
    (hdc : dc.isValid = true) (hdch : dch.isValid = true)
    (hdm : dm.isValid = true) (hda : da.isValid = true)
    (hdb : ∀ t, db = some t → t.isValid = true)
    (hf1 : QLTFS.FileOk f1) (hf2 : QLTFS.FileOk f2)
    (_hext : f1.extentInfo = [e1, e2]) :
    QLTFS.parseIndexDocModel now (QLTFS.writeIndexDoc
      { version := v, creator := cr, volumeUuid := uu, generationNumber := gen,
        updateTime := ut, selfLocation := selfLoc,
        previousGenerationLocation := prevLoc, allowPolicyUpdate := apu,
        highestFileUid := huidN,
        rootDirectory := .mk rn ru rr rc rch rm ra rb rx []
          [.mk dn du dr dc dch dm da db dx [f1, f2] []] }) =
      { version := v, creator := cr, volumeUuid := uu, generationNumber := gen,
        updateTime := ut, selfLocation := selfLoc,
        previousGenerationLocation := prevLoc, allowPolicyUpdate := apu,
        highestFileUid := huidN,
        rootDirectory := .mk rn ru rr rc rch rm ra rb rx []
          [.mk dn du dr dc dch dm da db dx [f1, f2] []] } ∧
    QLTFS.parsePartition "0" = .IndexPartition ∧
    QLTFS.parsePartition "1" = .DataPartition ∧
    QLTFS.formatPartition .IndexPartition = "a" ∧
    QLTFS.formatPartition .DataPartition = "b" := by
  obtain ⟨hf1a, hf1b, hf1c, hf1d, hf1e⟩ := hf1
  obtain ⟨hf2a, hf2b, hf2c, hf2d, hf2e⟩ := hf2
  have hpf1 := parseFile_writeFile now f1 hf1a hf1b hf1c hf1d hf1e
  have hpf2 := parseFile_writeFile now f2 hf2a hf2b hf2c hf2d hf2e
  have hutc := parseChain_format now ut hut
  have hrcc := parseChain_format now rc hrc
  have hrchc := parseChain_format now rch hrch
  have hrmc := parseChain_format now rm hrm
  have hrac := parseChain_format now ra hra
  have hdcc := parseChain_format now dc hdc
  have hdchc := parseChain_format now dch hdch
  have hdmc := parseChain_format now dm hdm
  have hdac := parseChain_format now da hda
  have huuc := uuidFromString_uuidToString uu huu
  have hloc1 := parseLocation_writeLocation_elems selfLoc
  have hloc2 := parseLocation_writeLocation_elems prevLoc
  refine ⟨?_, rfl, rfl, rfl, rfl⟩
  cases rb with
  | none =>
    cases db with
    | none =>
      rcases Nat.eq_zero_or_pos ru with hru | hru <;>
        rcases Nat.eq_zero_or_pos du with hdu | hdu <;>
        simp [QLTFS.parseIndexDocModel, QLTFS.writeIndexDoc, parseIndexChildren_cons,
          parseIndexChildren_nil, QLTFS.parseIndexStep, QLTFS.writeLocationX,
          QLTFS.textElem, elemText_single, toULongLong_natToString,
          parseBoolean_formatBoolean, writeDirectoryX_eq, QLTFS.parseDirectoryChildren,
          QLTFS.parseDirectoryStep, parseDirectoryChildren_append,
          parseDirectoryChildren_xattrs, QLTFS.writeFileX, QLTFS.emptyDirectory,
          QLTFS.LtfsDirectory.setName, QLTFS.LtfsDirectory.setUid,
          QLTFS.LtfsDirectory.setReadonly, QLTFS.LtfsDirectory.setCreationTime,
          QLTFS.LtfsDirectory.setChangeTime, QLTFS.LtfsDirectory.setModifyTime,
          QLTFS.LtfsDirectory.setAccessTime, QLTFS.LtfsDirectory.setBackupTime,
          QLTFS.LtfsDirectory.setExtendedAttributes, QLTFS.LtfsDirectory.addFile,
          QLTFS.LtfsDirectory.addSubdirectory, QLTFS.LtfsDirectory.extendedAttributes,
          hpf1, hpf2, hutc, hrcc, hrchc, hrmc, hrac, hdcc, hdchc, hdmc, hdac,
          huuc, hloc1, hloc2, hv, hprev, hru, hdu]
    | some dbt =>
      have hdbtc := parseChain_format now dbt (hdb dbt rfl)
      rcases Nat.eq_zero_or_pos ru with hru | hru <;>
        rcases Nat.eq_zero_or_pos du with hdu | hdu <;>
        simp [QLTFS.parseIndexDocModel, QLTFS.writeIndexDoc, parseIndexChildren_cons,
          parseIndexChildren_nil, QLTFS.parseIndexStep, QLTFS.writeLocationX,
          QLTFS.textElem, elemText_single, toULongLong_natToString,
          parseBoolean_formatBoolean, writeDirectoryX_eq, QLTFS.parseDirectoryChildren,
          QLTFS.parseDirectoryStep, parseDirectoryChildren_append,
          parseDirectoryChildren_xattrs, QLTFS.writeFileX, QLTFS.emptyDirectory,
          QLTFS.LtfsDirectory.setName, QLTFS.LtfsDirectory.setUid,
          QLTFS.LtfsDirectory.setReadonly, QLTFS.LtfsDirectory.setCreationTime,
          QLTFS.LtfsDirectory.setChangeTime, QLTFS.LtfsDirectory.setModifyTime,
          QLTFS.LtfsDirectory.setAccessTime, QLTFS.LtfsDirectory.setBackupTime,
          QLTFS.LtfsDirectory.setExtendedAttributes, QLTFS.LtfsDirectory.addFile,
          QLTFS.LtfsDirectory.addSubdirectory, QLTFS.LtfsDirectory.extendedAttributes,
          hpf1, hpf2, hutc, hrcc, hrchc, hrmc, hrac, hdcc, hdchc, hdmc, hdac,
          hdbtc, huuc, hloc1, hloc2, hv, hprev, hru, hdu]
  | some rbt =>
    have hrbtc := parseChain_format now rbt (hrb rbt rfl)
    cases db with
    | none =>
      rcases Nat.eq_zero_or_pos ru with hru | hru <;>
        rcases Nat.eq_zero_or_pos du with hdu | hdu <;>
        simp [QLTFS.parseIndexDocModel, QLTFS.writeIndexDoc, parseIndexChildren_cons,
          parseIndexChildren_nil, QLTFS.parseIndexStep, QLTFS.writeLocationX,
          QLTFS.textElem, elemText_single, toULongLong_natToString,
          parseBoolean_formatBoolean, writeDirectoryX_eq, QLTFS.parseDirectoryChildren,
          QLTFS.parseDirectoryStep, parseDirectoryChildren_append,
          parseDirectoryChildren_xattrs, QLTFS.writeFileX, QLTFS.emptyDirectory,
          QLTFS.LtfsDirectory.setName, QLTFS.LtfsDirectory.setUid,
          QLTFS.LtfsDirectory.setReadonly, QLTFS.LtfsDirectory.setCreationTime,
          QLTFS.LtfsDirectory.setChangeTime, QLTFS.LtfsDirectory.setModifyTime,
          QLTFS.LtfsDirectory.setAccessTime, QLTFS.LtfsDirectory.setBackupTime,
          QLTFS.LtfsDirectory.setExtendedAttributes, QLTFS.LtfsDirectory.addFile,
          QLTFS.LtfsDirectory.addSubdirectory, QLTFS.LtfsDirectory.extendedAttributes,
          hpf1, hpf2, hutc, hrcc, hrchc, hrmc, hrac, hdcc, hdchc, hdmc, hdac,
          hrbtc, huuc, hloc1, hloc2, hv, hprev, hru, hdu]
    | some dbt =>
      have hdbtc := parseChain_format now dbt (hdb dbt rfl)
      rcases Nat.eq_zero_or_pos ru with hru | hru <;>
        rcases Nat.eq_zero_or_pos du with hdu | hdu <;>
        simp [QLTFS.parseIndexDocModel, QLTFS.writeIndexDoc, parseIndexChildren_cons,
          parseIndexChildren_nil, QLTFS.parseIndexStep, QLTFS.writeLocationX,
          QLTFS.textElem, elemText_single, toULongLong_natToString,
          parseBoolean_formatBoolean, writeDirectoryX_eq, QLTFS.parseDirectoryChildren,
          QLTFS.parseDirectoryStep, parseDirectoryChildren_append,
          parseDirectoryChildren_xattrs, QLTFS.writeFileX, QLTFS.emptyDirectory,
          QLTFS.LtfsDirectory.setName, QLTFS.LtfsDirectory.setUid,
          QLTFS.LtfsDirectory.setReadonly, QLTFS.LtfsDirectory.setCreationTime,
          QLTFS.LtfsDirectory.setChangeTime, QLTFS.LtfsDirectory.setModifyTime,
          QLTFS.LtfsDirectory.setAccessTime, QLTFS.LtfsDirectory.setBackupTime,
          QLTFS.LtfsDirectory.setExtendedAttributes, QLTFS.LtfsDirectory.addFile,
          QLTFS.LtfsDirectory.addSubdirectory, QLTFS.LtfsDirectory.extendedAttributes,
          hpf1, hpf2, hutc, hrcc, hrchc, hrmc, hrac, hdcc, hdchc, hdmc, hdac,
          hrbtc, hdbtc, huuc, hloc1, hloc2, hv, hprev, hru, hdu]

/-- C5 witness: a concrete index of the round-trip shape — creator
"QLTOTapeMan", one directory with two files, the first carrying two
extents — survives the encode/decode cycle unchanged. -/
theorem index_roundtrip_witness :
    QLTFS.parseIndexDocModel ⟨2024, 1, 1, 0, 0, 0, 0⟩ (QLTFS.writeIndexDoc
      { version := "2.4.0", creator := "QLTOTapeMan",
        volumeUuid := ⟨1, 2, 3, 4, 5⟩, generationNumber := 7,
        updateTime := ⟨2024, 1, 15, 12, 30, 45, 123⟩,
        selfLocation := ⟨.IndexPartition, 5⟩,
        previousGenerationLocation := ⟨.IndexPartition, 1⟩,
        allowPolicyUpdate := true, highestFileUid := 3,
        rootDirectory := .mk "" 1 false ⟨2024, 1, 1, 0, 0, 0, 0⟩
          ⟨2024, 1, 1, 0, 0, 0, 0⟩ ⟨2024, 1, 1, 0, 0, 0, 0⟩ ⟨2024, 1, 1, 0, 0, 0, 0⟩
          none [⟨"k", "v"⟩] []
          [.mk "dir" 2 false ⟨2024, 1, 2, 1, 2, 3, 4⟩ ⟨2024, 1, 2, 1, 2, 3, 4⟩
            ⟨2024, 1, 2, 1, 2, 3, 4⟩ ⟨2024, 1, 2, 1, 2, 3, 4⟩
            (some ⟨2024, 2, 29, 23, 59, 59, 999⟩) []
            [{ name := "a.bin", uid := 3, length := 1500, readonly := false,
               creationTime := ⟨2024, 1, 3, 4, 5, 6, 7⟩,
               changeTime := ⟨2024, 1, 3, 4, 5, 6, 7⟩,
               modifyTime := ⟨2024, 1, 3, 4, 5, 6, 7⟩,
               accessTime := ⟨2024, 1, 3, 4, 5, 6, 7⟩,
               backupTime := none, extendedAttributes := [],
               extentInfo := [⟨.DataPartition, 100, 0, 0, 1000⟩,
                              ⟨.DataPartition, 101, 1000, 0, 500⟩] },
             { name := "b.txt", uid := 0, length := 0, readonly := true,
               creationTime := ⟨2024, 1, 4, 0, 0, 0, 0⟩,
               changeTime := ⟨2024, 1, 4, 0, 0, 0, 0⟩,
               modifyTime := ⟨2024, 1, 4, 0, 0, 0, 0⟩,
               accessTime := ⟨2024, 1, 4, 0, 0, 0, 0⟩,
               backupTime := none, extendedAttributes := [⟨"h", "x"⟩],
               extentInfo := [] }] []] }) =
      { version := "2.4.0", creator := "QLTOTapeMan",
        volumeUuid := ⟨1, 2, 3, 4, 5⟩, generationNumber := 7,
        updateTime := ⟨2024, 1, 15, 12, 30, 45, 123⟩,
        selfLocation := ⟨.IndexPartition, 5⟩,
        previousGenerationLocation := ⟨.IndexPartition, 1⟩,
        allowPolicyUpdate := true, highestFileUid := 3,
        rootDirectory := .mk "" 1 false ⟨2024, 1, 1, 0, 0, 0, 0⟩
          ⟨2024, 1, 1, 0, 0, 0, 0⟩ ⟨2024, 1, 1, 0, 0, 0, 0⟩ ⟨2024, 1, 1, 0, 0, 0, 0⟩
          none [⟨"k", "v"⟩] []
          [.mk "dir" 2 false ⟨2024, 1, 2, 1, 2, 3, 4⟩ ⟨2024, 1, 2, 1, 2, 3, 4⟩
            ⟨2024, 1, 2, 1, 2, 3, 4⟩ ⟨2024, 1, 2, 1, 2, 3, 4⟩
            (some ⟨2024, 2, 29, 23, 59, 59, 999⟩) []
            [{ name := "a.bin", uid := 3, length := 1500, readonly := false,
               creationTime := ⟨2024, 1, 3, 4, 5, 6, 7⟩,
               changeTime := ⟨2024, 1, 3, 4, 5, 6, 7⟩,
               modifyTime := ⟨2024, 1, 3, 4, 5, 6, 7⟩,
               accessTime := ⟨2024, 1, 3, 4, 5, 6, 7⟩,
               backupTime := none, extendedAttributes := [],
               extentInfo := [⟨.DataPartition, 100, 0, 0, 1000⟩,
                              ⟨.DataPartition, 101, 1000, 0, 500⟩] },
             { name := "b.txt", uid := 0, length := 0, readonly := true,
               creationTime := ⟨2024, 1, 4, 0, 0, 0, 0⟩,
               changeTime := ⟨2024, 1, 4, 0, 0, 0, 0⟩,
               modifyTime := ⟨2024, 1, 4, 0, 0, 0, 0⟩,
               accessTime := ⟨2024, 1, 4, 0, 0, 0, 0⟩,
               backupTime := none, extendedAttributes := [⟨"h", "x"⟩],
               extentInfo := [] }] []] } :=
  (index_roundtrip_one_dir_two_files ⟨2024, 1, 1, 0, 0, 0, 0⟩ "2.4.0" "QLTOTapeMan"
    ⟨1, 2, 3, 4, 5⟩ 7 3 ⟨2024, 1, 15, 12, 30, 45, 123⟩ ⟨.IndexPartition, 5⟩
    ⟨.IndexPartition, 1⟩ true "" "dir" 1 2 false false
    ⟨2024, 1, 1, 0, 0, 0, 0⟩ ⟨2024, 1, 1, 0, 0, 0, 0⟩ ⟨2024, 1, 1, 0, 0, 0, 0⟩
    ⟨2024, 1, 1, 0, 0, 0, 0⟩ ⟨2024, 1, 2, 1, 2, 3, 4⟩ ⟨2024, 1, 2, 1, 2, 3, 4⟩
    ⟨2024, 1, 2, 1, 2, 3, 4⟩ ⟨2024, 1, 2, 1, 2, 3, 4⟩
    none (some ⟨2024, 2, 29, 23, 59, 59, 999⟩) [⟨"k", "v"⟩] []
    { name := "a.bin", uid := 3, length := 1500, readonly := false,
      creationTime := ⟨2024, 1, 3, 4, 5, 6, 7⟩,
      changeTime := ⟨2024, 1, 3, 4, 5, 6, 7⟩,
      modifyTime := ⟨2024, 1, 3, 4, 5, 6, 7⟩,
      accessTime := ⟨2024, 1, 3, 4, 5, 6, 7⟩,
      backupTime := none, extendedAttributes := [],
      extentInfo := [⟨.DataPartition, 100, 0, 0, 1000⟩,
                     ⟨.DataPartition, 101, 1000, 0, 500⟩] }
    { name := "b.txt", uid := 0, length := 0, readonly := true,
      creationTime := ⟨2024, 1, 4, 0, 0, 0, 0⟩,
      changeTime := ⟨2024, 1, 4, 0, 0, 0, 0⟩,
      modifyTime := ⟨2024, 1, 4, 0, 0, 0, 0⟩,
      accessTime := ⟨2024, 1, 4, 0, 0, 0, 0⟩,
      backupTime := none, extendedAttributes := [⟨"h", "x"⟩],
      extentInfo := [] }
    ⟨.DataPartition, 100, 0, 0, 1000⟩ ⟨.DataPartition, 101, 1000, 0, 500⟩
    (by decide) (by decide) ⟨by norm_num, by norm_num, by norm_num, by norm_num,
      by norm_num⟩ (by decide) (by decide) (by decide)
    (by decide) (by decide) (fun t h => nomatch h) (by decide) (by decide)
    (by decide) (by decide) (fun t h => by cases h; decide)
    ⟨by decide, by decide, by decide, by decide, fun t h => nomatch h⟩
    ⟨by decide, by decide, by decide, by decide, fun t h => nomatch h⟩
    rfl).1

/-- No branch of the index loop writes the version field: it is fixed
by the root attribute. -/
theorem parseIndexStep_version (now : QLTFS.Timestamp) (idx : QLTFS.LtfsIndex)
    (x : QLTFS.Xml) :
    (QLTFS.parseIndexStep now idx x).version = idx.version := by
  cases x with
  | text s => rfl
  | elem n cs =>
    simp only [QLTFS.parseIndexStep]
    repeat' split
    all_goals rfl

theorem parseIndexChildren_version (now : QLTFS.Timestamp) :
    ∀ (cs : List QLTFS.Xml) (idx : QLTFS.LtfsIndex),
      (QLTFS.parseIndexChildren now cs idx).version = idx.version := by
  intro cs
  induction cs with
  | nil => intro idx; rfl
  | cons x rest ih =>
    intro idx
    rw [parseIndexChildren_cons, ih, parseIndexStep_version]

/-- C5 counterexample: an index of the round-trip shape whose version
string is empty does not survive the cycle — the writer substitutes the
default version attribute `2.4.0`, so the parsed index differs from the
original in the version field. -/
theorem index_roundtrip_fails_on_empty_version :
    (QLTFS.parseIndexDocModel ⟨2024, 1, 1, 0, 0, 0, 0⟩ (QLTFS.writeIndexDoc
      { version := "", creator := "QLTOTapeMan",
        volumeUuid := ⟨1, 2, 3, 4, 5⟩, generationNumber := 7,
        updateTime := ⟨2024, 1, 15, 12, 30, 45, 123⟩,
        selfLocation := ⟨.IndexPartition, 5⟩,
        previousGenerationLocation := ⟨.IndexPartition, 1⟩,
        allowPolicyUpdate := true, highestFileUid := 3,
        rootDirectory := .mk "" 1 false ⟨2024, 1, 1, 0, 0, 0, 0⟩
          ⟨2024, 1, 1, 0, 0, 0, 0⟩ ⟨2024, 1, 1, 0, 0, 0, 0⟩ ⟨2024, 1, 1, 0, 0, 0, 0⟩
          none [] []
          [.mk "dir" 2 false ⟨2024, 1, 2, 1, 2, 3, 4⟩ ⟨2024, 1, 2, 1, 2, 3, 4⟩
            ⟨2024, 1, 2, 1, 2, 3, 4⟩ ⟨2024, 1, 2, 1, 2, 3, 4⟩ none []
            [{ name := "a.bin", uid := 3, length := 1500,
               creationTime := ⟨2024, 1, 3, 4, 5, 6, 7⟩,
               changeTime := ⟨2024, 1, 3, 4, 5, 6, 7⟩,
               modifyTime := ⟨2024, 1, 3, 4, 5, 6, 7⟩,
               accessTime := ⟨2024, 1, 3, 4, 5, 6, 7⟩,
               extentInfo := [⟨.DataPartition, 100, 0, 0, 1000⟩,
                              ⟨.DataPartition, 101, 1000, 0, 500⟩] },
             { name := "b.txt",
               creationTime := ⟨2024, 1, 4, 0, 0, 0, 0⟩,
               changeTime := ⟨2024, 1, 4, 0, 0, 0, 0⟩,
               modifyTime := ⟨2024, 1, 4, 0, 0, 0, 0⟩,
               accessTime := ⟨2024, 1, 4, 0, 0, 0, 0⟩ }] []] })).version = "2.4.0" ∧
    QLTFS.parseIndexDocModel ⟨2024, 1, 1, 0, 0, 0, 0⟩ (QLTFS.writeIndexDoc
      { version := "", creator := "QLTOTapeMan",
        volumeUuid := ⟨1, 2, 3, 4, 5⟩, generationNumber := 7,
        updateTime := ⟨2024, 1, 15, 12, 30, 45, 123⟩,
        selfLocation := ⟨.IndexPartition, 5⟩,
        previousGenerationLocation := ⟨.IndexPartition, 1⟩,
        allowPolicyUpdate := true, highestFileUid := 3,
        rootDirectory := .mk "" 1 false ⟨2024, 1, 1, 0, 0, 0, 0⟩
          ⟨2024, 1, 1, 0, 0, 0, 0⟩ ⟨2024, 1, 1, 0, 0, 0, 0⟩ ⟨2024, 1, 1, 0, 0, 0, 0⟩
          none [] []
          [.mk "dir" 2 false ⟨2024, 1, 2, 1, 2, 3, 4⟩ ⟨2024, 1, 2, 1, 2, 3, 4⟩
            ⟨2024, 1, 2, 1, 2, 3, 4⟩ ⟨2024, 1, 2, 1, 2, 3, 4⟩ none []
            [{ name := "a.bin", uid := 3, length := 1500,
               creationTime := ⟨2024, 1, 3, 4, 5, 6, 7⟩,
               changeTime := ⟨2024, 1, 3, 4, 5, 6, 7⟩,
               modifyTime := ⟨2024, 1, 3, 4, 5, 6, 7⟩,
               accessTime := ⟨2024, 1, 3, 4, 5, 6, 7⟩,
               extentInfo := [⟨.DataPartition, 100, 0, 0, 1000⟩,
                              ⟨.DataPartition, 101, 1000, 0, 500⟩] },
             { name := "b.txt",
               creationTime := ⟨2024, 1, 4, 0, 0, 0, 0⟩,
               changeTime := ⟨2024, 1, 4, 0, 0, 0, 0⟩,
               modifyTime := ⟨2024, 1, 4, 0, 0, 0, 0⟩,
               accessTime := ⟨2024, 1, 4, 0, 0, 0, 0⟩ }] []] }) ≠
      { version := "", creator := "QLTOTapeMan",
        volumeUuid := ⟨1, 2, 3, 4, 5⟩, generationNumber := 7,
        updateTime := ⟨2024, 1, 15, 12, 30, 45, 123⟩,
        selfLocation := ⟨.IndexPartition, 5⟩,
        previousGenerationLocation := ⟨.IndexPartition, 1⟩,
        allowPolicyUpdate := true, highestFileUid := 3,
        rootDirectory := .mk "" 1 false ⟨2024, 1, 1, 0, 0, 0, 0⟩
          ⟨2024, 1, 1, 0, 0, 0, 0⟩ ⟨2024, 1, 1, 0, 0, 0, 0⟩ ⟨2024, 1, 1, 0, 0, 0, 0⟩
          none [] []
          [.mk "dir" 2 false ⟨2024, 1, 2, 1, 2, 3, 4⟩ ⟨2024, 1, 2, 1, 2, 3, 4⟩
            ⟨2024, 1, 2, 1, 2, 3, 4⟩ ⟨2024, 1, 2, 1, 2, 3, 4⟩ none []
            [{ name := "a.bin", uid := 3, length := 1500,
               creationTime := ⟨2024, 1, 3, 4, 5, 6, 7⟩,
               changeTime := ⟨2024, 1, 3, 4, 5, 6, 7⟩,
               modifyTime := ⟨2024, 1, 3, 4, 5, 6, 7⟩,
               accessTime := ⟨2024, 1, 3, 4, 5, 6, 7⟩,
               extentInfo := [⟨.DataPartition, 100, 0, 0, 1000⟩,
                              ⟨.DataPartition, 101, 1000, 0, 500⟩] },
             { name := "b.txt",
               creationTime := ⟨2024, 1, 4, 0, 0, 0, 0⟩,
               changeTime := ⟨2024, 1, 4, 0, 0, 0, 0⟩,
               modifyTime := ⟨2024, 1, 4, 0, 0, 0, 0⟩,
               accessTime := ⟨2024, 1, 4, 0, 0, 0, 0⟩ }] []] } := by
  have h1 : ∀ (doc : QLTFS.XmlDoc), doc.rootName = "ltfsindex" →
      (QLTFS.parseIndexDocModel ⟨2024, 1, 1, 0, 0, 0, 0⟩ doc).version =
        doc.versionAttr := by
    intro doc hr
    unfold QLTFS.parseIndexDocModel
    rw [if_pos hr, parseIndexChildren_version]
  constructor
  · rw [h1 _ rfl]
    simp [QLTFS.writeIndexDoc]
  · intro h
    have h2 := congrArg QLTFS.LtfsIndex.version h
    rw [h1 _ rfl] at h2
    simp [QLTFS.writeIndexDoc] at h2

end QLTFS
